import Mathlib

/-!
Verification of the Game-of-Life core of `src/src/main.cpp`
(SDL3-Game-of-Life).

The grid is a `std::vector<std::vector<Uint8>>`; we embed it as
`List (List Nat)`.  Cell reads `grid[r][c]` become `gridGet`; the C++
write loops (`initGrid`, the double loop of `updateGrid`) are embedded
as folds that `set` one entry at a time, exactly in loop order, and the
final `grid = newGrid;` assignment is the pair returned by `updateGrid`.
C++ `int` arithmetic on indices is embedded as `Int` with `Int.tmod`
for the `%` operator (C++ `%` truncates toward zero, as `tmod` does).
-/

namespace GameOfLife

/-- Settings from the top of `main.cpp`. -/
def WindowWidth : Nat := 1600

def WindowHeight : Nat := 900

def CellSize : Nat := 2

/-- `Columns = WindowWidth / CellSize` (integer division). -/
def Columns : Nat := WindowWidth / CellSize

/-- `Rows = WindowHeight / CellSize` (integer division). -/
def Rows : Nat := WindowHeight / CellSize

/-- A generation buffer: `std::vector<std::vector<Uint8>>`. -/
abbrev Grid := List (List Nat)

/-- `grid[r][c]` (the program only ever indexes in range; out-of-range
reads default to `0` in the embedding). -/
def gridGet (grid : Grid) (r c : Nat) : Nat :=
  (grid.getD r []).getD c 0

/-- The buffer has `rows` rows, each of `cols` cells, as both global
buffers do by construction. -/
def gridShape (rows cols : Nat) (g : Grid) : Prop :=
  g.length = rows ∧ ∀ row ∈ g, row.length = cols

instance (rows cols : Nat) (g : Grid) : Decidable (gridShape rows cols g) := by
  unfold gridShape
  infer_instance

/-- `newGrid[r][c] = v`: set one cell of a buffer in place. -/
def setCell (g : Grid) (r c : Nat) (v : Nat) : Grid :=
  g.set r ((g.getD r []).set c v)

/-- The inner `for (int c ...)` write loop over one row: each iteration
stores `f c` at column `c`. -/
def overwriteRow (cols : Nat) (f : Nat → Nat) (row : List Nat) : List Nat :=
  (List.range cols).foldl (fun acc c => acc.set c (f c)) row

/-- The double `for (int r ...) for (int c ...)` write loop over a whole
buffer: iteration `(r, c)` stores `f r c` at cell `(r, c)`. -/
def overwriteGrid (rows cols : Nat) (f : Nat → Nat → Nat) (g : Grid) : Grid :=
  (List.range rows).foldl
    (fun acc r => acc.set r (overwriteRow cols (f r) (acc.getD r []))) g

/-- A freshly described buffer whose cell `(r, c)` holds `f r c`. -/
def mkGrid (rows cols : Nat) (f : Nat → Nat → Nat) : Grid :=
  (List.range rows).map (fun r => (List.range cols).map (f r))

/-- The eight `(r, c)` loop offsets of `getNeighborCount`, in loop order,
with `(0,0)` skipped by the `continue`. -/
def neighborOffsets : List (Int × Int) :=
  [(-1, -1), (-1, 0), (-1, 1), (0, -1), (0, 1), (1, -1), (1, 0), (1, 1)]

/-- `int destRow = (row + r + Rows) % Rows;` — C++ `%` on `int` is
truncated remainder, i.e. `Int.tmod`. -/
def wrapIndex (pos offset dim : Int) : Int :=
  (pos + offset + dim).tmod dim

/-- `getNeighborCount(grid, row, column)`: counts the neighbors (among the
eight wrapped offsets) whose cell is truthy (nonzero). -/
def getNeighborCount (rows cols : Nat) (grid : Grid) (row column : Int) : Nat :=
  neighborOffsets.countP (fun o =>
    gridGet grid (wrapIndex row o.1 rows).toNat (wrapIndex column o.2 cols).toNat != 0)

/-- The body of `updateGrid`'s double loop: the value written to
`newGrid[r][c]`, decided by `grid[r][c]` and the neighbor count. -/
def stepCell (rows cols : Nat) (grid : Grid) (r c : Nat) : Nat :=
  let neighborCount := getNeighborCount rows cols grid (r : Int) (c : Int)
  if gridGet grid r c ≠ 0 then
    if neighborCount < 2 ∨ neighborCount > 3 then 0 else 1
  else
    if neighborCount = 3 then 1 else 0

/-- The write phase of `updateGrid`: the double loop that fills `newGrid`
from `grid`. -/
def updateStaging (rows cols : Nat) (grid newGrid : Grid) : Grid :=
  overwriteGrid rows cols (stepCell rows cols grid) newGrid

/-- The next generation as a pure function of the current one. -/
def stepGrid (rows cols : Nat) (grid : Grid) : Grid :=
  mkGrid rows cols (stepCell rows cols grid)

/-- The state of the two buffers after `updateGrid`'s double loop but
before the final `grid = newGrid;` assignment: `grid` untouched,
`newGrid` filled by the loop. -/
def computePhase (rows cols : Nat) (bufs : Grid × Grid) : Grid × Grid :=
  (bufs.1, updateStaging rows cols bufs.1 bufs.2)

/-- `updateGrid(grid, newGrid)`: fill `newGrid` by the double loop, then
`grid = newGrid;`.  Returns the final `(grid, newGrid)` pair. -/
def updateGrid (rows cols : Nat) (grid newGrid : Grid) : Grid × Grid :=
  let p := computePhase rows cols (grid, newGrid)
  (p.2, p.2)

/-- `initGrid(grid)`: every cell is overwritten with
`((std::rand() % 100) < 10) ? 1 : 0`; the stream of `std::rand()` draws is
abstracted as an oracle `rand` giving the draw consumed at cell `(r, c)`. -/
def initGrid (rows cols : Nat) (rand : Nat → Nat → Nat) (grid : Grid) : Grid :=
  overwriteGrid rows cols (fun r c => if rand r c % 100 < 10 then 1 else 0) grid

/-- A generation whose only ALIVE cells are the horizontal line
`{(r, c-1), (r, c), (r, c+1)}`. -/
def hblinker (rows cols r c : Nat) : Grid :=
  mkGrid rows cols (fun x y =>
    if x = r ∧ (y + 1 = c ∨ y = c ∨ y = c + 1) then 1 else 0)

/-- A generation whose only ALIVE cells are the vertical line
`{(r-1, c), (r, c), (r+1, c)}`. -/
def vblinker (rows cols r c : Nat) : Grid :=
  mkGrid rows cols (fun x y =>
    if y = c ∧ (x + 1 = r ∨ x = r ∨ x = r + 1) then 1 else 0)

/-! ### The event handler (`SDL_AppEvent`) -/

/-- `SDL_AppResult` values the handler assigns to `app->status`. -/
inductive AppResult where
  | continue_
  | success
  | failure
  deriving DecidableEq

/-- The events `SDL_AppEvent` distinguishes: `SDL_EVENT_QUIT`,
`SDL_EVENT_KEY_DOWN` (carrying `event->key.key`), anything else. -/
inductive Event where
  | quit
  | keyDown (key : Nat)
  | other
  deriving DecidableEq

/-- SDL3 keycode `SDLK_SPACE` (0x20). -/
def SDLK_SPACE : Nat := 32

/-- SDL3 keycode `SDLK_R` (0x72, lowercase r). -/
def SDLK_R : Nat := 114

/-- The mutable program state `SDL_AppEvent` can touch: the `Application`
fields `status` and `runSimulation`, and the global buffers `Grid` and
`NewGrid`. -/
structure AppState where
  status : AppResult
  runSimulation : Bool
  grid : Grid
  newGrid : Grid
  deriving DecidableEq

/-- `SDL_AppEvent`: quit sets `app->status = SDL_APP_SUCCESS`; SPACE flips
`app->runSimulation`; R calls `initGrid(Grid)` on the current buffer;
every branch returns `SDL_APP_CONTINUE` (the state is the whole effect). -/
def SDL_AppEvent (rand : Nat → Nat → Nat) (s : AppState) (e : Event) : AppState :=
  match e with
  | .quit => { s with status := .success }
  | .keyDown k =>
      if k = SDLK_SPACE then { s with runSimulation := !s.runSimulation }
      else if k = SDLK_R then { s with grid := initGrid Rows Columns rand s.grid }
      else s
  | .other => s

/-! ### The write loops fully overwrite their buffer -/

theorem set_append_length {α : Type} (l1 l2 : List α) (v : α) (n : Nat)
    (h : n = l1.length) : (l1 ++ l2).set n v = l1 ++ l2.set 0 v := by
  subst h
  induction l1 with
  | nil => rfl
  | cons a t ih => simp [List.set, ih]

theorem getD_append_length {α : Type} (l1 l2 : List α) (d : α) (n : Nat)
    (h : n = l1.length) : (l1 ++ l2).getD n d = l2.getD 0 d := by
  subst h
  induction l1 with
  | nil => rfl
  | cons a t ih => simpa using ih

theorem overwriteRow_eq (cols : Nat) (f : Nat → Nat) (row : List Nat)
    (h : cols ≤ row.length) :
    overwriteRow cols f row = (List.range cols).map f ++ row.drop cols := by
  induction cols with
  | zero => simp [overwriteRow]
  | succ n ih =>
    have hn : n ≤ row.length := Nat.le_of_succ_le h
    have hlt : n < row.length := h
    have hstep : overwriteRow (n + 1) f row = (overwriteRow n f row).set n (f n) := by
      simp [overwriteRow, List.range_succ]
    have hdrop : row.drop n = row[n] :: row.drop (n + 1) :=
      List.drop_eq_getElem_cons hlt
    have hlen : ((List.range n).map f).length = n := by simp
    calc overwriteRow (n + 1) f row
        = ((List.range n).map f ++ row.drop n).set n (f n) := by
          rw [hstep, ih hn]
      _ = (List.range n).map f ++ (row.drop n).set 0 (f n) :=
          set_append_length _ _ _ n hlen.symm
      _ = (List.range n).map f ++ (f n :: row.drop (n + 1)) := by
          rw [hdrop]
          rfl
      _ = (List.range (n + 1)).map f ++ row.drop (n + 1) := by
          simp [List.range_succ]

theorem overwriteRow_eq_map (cols : Nat) (f : Nat → Nat) (row : List Nat)
    (h : row.length = cols) :
    overwriteRow cols f row = (List.range cols).map f := by
  rw [overwriteRow_eq cols f row (le_of_eq h.symm), ← h]
  simp

theorem overwriteGrid_eq (rows cols : Nat) (f : Nat → Nat → Nat) (g : Grid)
    (h : rows ≤ g.length) (hrow : ∀ row ∈ g, row.length = cols) :
    overwriteGrid rows cols f g =
      (List.range rows).map (fun r => (List.range cols).map (f r)) ++ g.drop rows := by
  induction rows with
  | zero => simp [overwriteGrid]
  | succ n ih =>
    have hn : n ≤ g.length := Nat.le_of_succ_le h
    have hlt : n < g.length := h
    have hstep : overwriteGrid (n + 1) cols f g =
        (overwriteGrid n cols f g).set n
          (overwriteRow cols (f n) ((overwriteGrid n cols f g).getD n [])) := by
      simp [overwriteGrid, List.range_succ]
    have hdrop : g.drop n = g[n] :: g.drop (n + 1) := List.drop_eq_getElem_cons hlt
    have hlen : ((List.range n).map (fun r => (List.range cols).map (f r))).length = n := by
      simp
    have hgetD : (overwriteGrid n cols f g).getD n [] = g[n] := by
      rw [ih hn, getD_append_length _ _ _ n hlen.symm, hdrop]
      rfl
    have hrowlen : (g[n]).length = cols := hrow _ (List.getElem_mem hlt)
    calc overwriteGrid (n + 1) cols f g
        = ((List.range n).map (fun r => (List.range cols).map (f r)) ++ g.drop n).set n
            ((List.range cols).map (f n)) := by
          rw [hstep, hgetD, overwriteRow_eq_map cols (f n) _ hrowlen, ih hn]
      _ = (List.range n).map (fun r => (List.range cols).map (f r)) ++
            (g.drop n).set 0 ((List.range cols).map (f n)) :=
          set_append_length _ _ _ n hlen.symm
      _ = (List.range (n + 1)).map (fun r => (List.range cols).map (f r)) ++
            g.drop (n + 1) := by
          simp only [List.range_succ, List.map_append, List.map_cons, List.map_nil,
            List.append_assoc, List.cons_append, List.nil_append]
          rw [hdrop]
          rfl

theorem overwriteGrid_eq_mkGrid (rows cols : Nat) (f : Nat → Nat → Nat) (g : Grid)
    (h : gridShape rows cols g) :
    overwriteGrid rows cols f g = mkGrid rows cols f := by
  rw [overwriteGrid_eq rows cols f g (le_of_eq h.1.symm) h.2, ← h.1]
  simp [mkGrid]

theorem gridGet_mkGrid (rows cols : Nat) (f : Nat → Nat → Nat) (r c : Nat) :
    gridGet (mkGrid rows cols f) r c =
      if r < rows ∧ c < cols then f r c else 0 := by
  unfold gridGet mkGrid
  rcases Nat.lt_or_ge r rows with hr | hr
  · rcases Nat.lt_or_ge c cols with hc | hc
    · simp [List.getD, hr, hc]
    · simp [List.getD, hr, Nat.not_lt.mpr hc, List.getElem?_eq_none, hc]
  · simp [List.getD, List.getElem?_eq_none, hr, Nat.not_lt.mpr hr]

theorem mkGrid_shape (rows cols : Nat) (f : Nat → Nat → Nat) :
    gridShape rows cols (mkGrid rows cols f) := by
  constructor
  · simp [mkGrid]
  · intro row hrow
    simp only [mkGrid, List.mem_map] at hrow
    obtain ⟨r, _, rfl⟩ := hrow
    simp

/-! ### Wrapped index arithmetic -/

theorem wrapIndex_bounds (pos offset dim : Int) (h0 : 0 ≤ pos + offset + dim)
    (hd : 0 < dim) :
    0 ≤ wrapIndex pos offset dim ∧ wrapIndex pos offset dim < dim := by
  unfold wrapIndex
  rw [Int.tmod_eq_emod h0 (le_of_lt hd)]
  exact ⟨Int.emod_nonneg _ (ne_of_gt hd), Int.emod_lt_of_pos _ hd⟩

theorem wrapIndex_spec (x d : Int) (rows : Nat) (h1 : 1 ≤ rows) (hx0 : 0 ≤ x)
    (hx : x < (rows : Int)) (hd1 : -1 ≤ d) (hd2 : d ≤ 1) :
    wrapIndex x d rows =
      if x + d = -1 then (rows : Int) - 1
      else if x + d = (rows : Int) then 0
      else x + d := by
  have hrows : (1 : Int) ≤ (rows : Int) := by exact_mod_cast h1
  have h0 : 0 ≤ x + d + rows := by omega
  unfold wrapIndex
  rw [Int.tmod_eq_emod h0 (by omega)]
  split_ifs with h h'
  · have he : x + d + rows = (rows : Int) - 1 := by omega
    rw [he]
    exact Int.emod_eq_of_lt (by omega) (by omega)
  · have he : x + d + rows = (rows : Int) + (rows : Int) := by omega
    rw [he, Int.add_emod_self, Int.emod_self]
  · rw [Int.add_emod_self]
    exact Int.emod_eq_of_lt (by omega) (by omega)

theorem neighborOffsets_bounded :
    ∀ p ∈ neighborOffsets, -1 ≤ p.1 ∧ p.1 ≤ 1 ∧ -1 ≤ p.2 ∧ p.2 ≤ 1 := by
  decide

theorem neighborOffsets_char :
    ∀ p ∈ neighborOffsets,
      (p.1 = -1 ∨ p.1 = 0 ∨ p.1 = 1) ∧ (p.2 = -1 ∨ p.2 = 0 ∨ p.2 = 1) ∧
        p ≠ (0, 0) := by
  decide

theorem stepCell_eq (rows cols : Nat) (grid : Grid) (r c : Nat) :
    stepCell rows cols grid r c =
      if gridGet grid r c ≠ 0 then
        if getNeighborCount rows cols grid r c < 2 ∨
            getNeighborCount rows cols grid r c > 3 then 0 else 1
      else
        if getNeighborCount rows cols grid r c = 3 then 1 else 0 := rfl

theorem updateStaging_eq_stepGrid (rows cols : Nat) (grid newGrid : Grid)
    (h : gridShape rows cols newGrid) :
    updateStaging rows cols grid newGrid = stepGrid rows cols grid :=
  overwriteGrid_eq_mkGrid rows cols _ newGrid h

theorem gridGet_stepGrid (rows cols : Nat) (grid : Grid) (r c : Nat) :
    gridGet (stepGrid rows cols grid) r c =
      if r < rows ∧ c < cols then stepCell rows cols grid r c else 0 :=
  gridGet_mkGrid rows cols _ r c

/-! ### Claim theorems -/

/-- C1: one step writes to the staging cell the value given by the standard
rule: an ALIVE cell becomes DEAD exactly when its neighbor count is `< 2`
or `> 3` and stays ALIVE exactly when the count is 2 or 3; a DEAD cell
becomes ALIVE exactly when its neighbor count is 3 and stays DEAD
otherwise. -/
theorem step_follows_life_rule (rows cols : Nat) (grid newGrid : Grid)
    (hng : gridShape rows cols newGrid) (r c : Nat) (hr : r < rows) (hc : c < cols) :
    ((gridGet grid r c ≠ 0 →
      ((gridGet (updateStaging rows cols grid newGrid) r c = 0 ↔
          (getNeighborCount rows cols grid r c < 2 ∨
           getNeighborCount rows cols grid r c > 3)) ∧
       (gridGet (updateStaging rows cols grid newGrid) r c = 1 ↔
          (getNeighborCount rows cols grid r c = 2 ∨
           getNeighborCount rows cols grid r c = 3)))) ∧
     (gridGet grid r c = 0 →
      ((gridGet (updateStaging rows cols grid newGrid) r c = 1 ↔
          getNeighborCount rows cols grid r c = 3) ∧
       (gridGet (updateStaging rows cols grid newGrid) r c = 0 ↔
          getNeighborCount rows cols grid r c ≠ 3)))) := by
  rw [updateStaging_eq_stepGrid rows cols grid newGrid hng, gridGet_stepGrid,
    if_pos ⟨hr, hc⟩, stepCell_eq]
  constructor
  · intro halive
    rw [if_pos halive]
    split_ifs <;> constructor <;> simp <;> omega
  · intro hdead
    rw [if_neg (by simp [hdead])]
    split_ifs <;> constructor <;> simp <;> omega

/-- C1 witness. -/
theorem step_follows_life_rule_witness :
    gridShape 2 2 [[0, 0], [0, 0]] ∧ (0 : Nat) < 2 ∧
    ((gridGet [[1, 1], [1, 0]] 0 0 ≠ 0 →
      ((gridGet (updateStaging 2 2 [[1, 1], [1, 0]] [[0, 0], [0, 0]]) 0 0 = 0 ↔
          (getNeighborCount 2 2 [[1, 1], [1, 0]] 0 0 < 2 ∨
           getNeighborCount 2 2 [[1, 1], [1, 0]] 0 0 > 3)) ∧
       (gridGet (updateStaging 2 2 [[1, 1], [1, 0]] [[0, 0], [0, 0]]) 0 0 = 1 ↔
          (getNeighborCount 2 2 [[1, 1], [1, 0]] 0 0 = 2 ∨
           getNeighborCount 2 2 [[1, 1], [1, 0]] 0 0 = 3)))) ∧
     (gridGet [[1, 1], [1, 0]] 0 0 = 0 →
      ((gridGet (updateStaging 2 2 [[1, 1], [1, 0]] [[0, 0], [0, 0]]) 0 0 = 1 ↔
          getNeighborCount 2 2 [[1, 1], [1, 0]] 0 0 = 3) ∧
       (gridGet (updateStaging 2 2 [[1, 1], [1, 0]] [[0, 0], [0, 0]]) 0 0 = 0 ↔
          getNeighborCount 2 2 [[1, 1], [1, 0]] 0 0 ≠ 3)))) :=
  ⟨by decide, by decide,
    step_follows_life_rule 2 2 [[1, 1], [1, 0]] [[0, 0], [0, 0]] (by decide) 0 0
      (by decide) (by decide)⟩

/-- C2: for `Rows, Columns ≥ 1` and an in-range cell, `getNeighborCount`
examines exactly the 8 offsets `{-1,0,1} × {-1,0,1}` minus `(0,0)`, each
wrapped coordinate is in range, and the count is at most 8. -/
theorem neighborCount_safe (rows cols : Nat) (grid : Grid) (row column : Int)
    (hrows : 1 ≤ rows) (hcols : 1 ≤ cols)
    (hrow0 : 0 ≤ row) (hrow : row < (rows : Int))
    (hcol0 : 0 ≤ column) (hcol : column < (cols : Int)) :
    ((∀ p : Int × Int, p ∈ neighborOffsets ↔
        ((p.1 = -1 ∨ p.1 = 0 ∨ p.1 = 1) ∧ (p.2 = -1 ∨ p.2 = 0 ∨ p.2 = 1) ∧
          p ≠ (0, 0))) ∧
     neighborOffsets.length = 8 ∧
     (∀ o ∈ neighborOffsets,
        (0 ≤ wrapIndex row o.1 rows ∧ wrapIndex row o.1 rows < rows) ∧
        (0 ≤ wrapIndex column o.2 cols ∧ wrapIndex column o.2 cols < cols)) ∧
     getNeighborCount rows cols grid row column ≤ 8) := by
  refine ⟨?_, by decide, ?_, ?_⟩
  · rintro ⟨a, b⟩
    constructor
    · exact fun hmem => neighborOffsets_char _ hmem
    · rintro ⟨ha, hb, hab⟩
      rcases ha with rfl | rfl | rfl <;> rcases hb with rfl | rfl | rfl <;>
        simp_all [neighborOffsets]
  · intro o ho
    have hrowsZ : (1 : Int) ≤ (rows : Int) := by exact_mod_cast hrows
    have hcolsZ : (1 : Int) ≤ (cols : Int) := by exact_mod_cast hcols
    have ho1 : -1 ≤ o.1 ∧ o.1 ≤ 1 ∧ -1 ≤ o.2 ∧ o.2 ≤ 1 := neighborOffsets_bounded o ho
    exact ⟨wrapIndex_bounds row o.1 rows (by omega) (by omega),
      wrapIndex_bounds column o.2 cols (by omega) (by omega)⟩
  · calc getNeighborCount rows cols grid row column
        ≤ neighborOffsets.length := List.countP_le_length _
    _ = 8 := by decide

/-- C2 witness. -/
theorem neighborCount_safe_witness :
    (1 ≤ 1 ∧ 1 ≤ 1 ∧ (0 : Int) ≤ 0 ∧ (0 : Int) < (1 : Nat) ∧
      (0 : Int) ≤ 0 ∧ (0 : Int) < (1 : Nat)) ∧
    ((∀ p : Int × Int, p ∈ neighborOffsets ↔
        ((p.1 = -1 ∨ p.1 = 0 ∨ p.1 = 1) ∧ (p.2 = -1 ∨ p.2 = 0 ∨ p.2 = 1) ∧
          p ≠ (0, 0))) ∧
     neighborOffsets.length = 8 ∧
     (∀ o ∈ neighborOffsets,
        (0 ≤ wrapIndex 0 o.1 1 ∧ wrapIndex 0 o.1 1 < 1) ∧
        (0 ≤ wrapIndex 0 o.2 1 ∧ wrapIndex 0 o.2 1 < 1)) ∧
     getNeighborCount 1 1 [[1]] 0 0 ≤ 8) :=
  ⟨⟨le_refl 1, le_refl 1, le_refl 0, by norm_num, le_refl 0, by norm_num⟩,
    neighborCount_safe 1 1 [[1]] 0 0 (le_refl 1) (le_refl 1) (le_refl 0)
      (by norm_num) (le_refl 0) (by norm_num)⟩

/-- C3: `updateGrid` is deterministic — identical current generations give
identical results, whatever the staging buffer previously held. -/
theorem step_deterministic (rows cols : Nat) (g1 g2 ng1 ng2 : Grid)
    (hg : g1 = g2) (h1 : gridShape rows cols ng1) (h2 : gridShape rows cols ng2) :
    updateGrid rows cols g1 ng1 = updateGrid rows cols g2 ng2 := by
  subst hg
  simp only [updateGrid, computePhase,
    updateStaging_eq_stepGrid rows cols g1 ng1 h1,
    updateStaging_eq_stepGrid rows cols g1 ng2 h2]

/-- C3 witness. -/
theorem step_deterministic_witness :
    ([[1, 0], [0, 1]] : Grid) = [[1, 0], [0, 1]] ∧
    gridShape 2 2 [[0, 0], [0, 0]] ∧ gridShape 2 2 [[1, 1], [1, 1]] ∧
    updateGrid 2 2 [[1, 0], [0, 1]] [[0, 0], [0, 0]] =
      updateGrid 2 2 [[1, 0], [0, 1]] [[1, 1], [1, 1]] :=
  ⟨rfl, by decide, by decide,
    step_deterministic 2 2 [[1, 0], [0, 1]] [[1, 0], [0, 1]]
      [[0, 0], [0, 0]] [[1, 1], [1, 1]] rfl (by decide) (by decide)⟩

/-- C4: during the compute phase of `updateGrid`, the current buffer is
not mutated, and the staging result is a pure function of the current
buffer alone — it does not depend on staging's prior contents. -/
theorem step_pure_of_current (rows cols : Nat) (g s1 s2 : Grid)
    (h1 : gridShape rows cols s1) (h2 : gridShape rows cols s2) :
    ((computePhase rows cols (g, s1)).1 = g ∧
     (computePhase rows cols (g, s1)).2 = (computePhase rows cols (g, s2)).2 ∧
     (computePhase rows cols (g, s1)).2 = stepGrid rows cols g) := by
  refine ⟨rfl, ?_, ?_⟩
  · simp only [computePhase, updateStaging_eq_stepGrid rows cols g s1 h1,
      updateStaging_eq_stepGrid rows cols g s2 h2]
  · simpa only [computePhase] using updateStaging_eq_stepGrid rows cols g s1 h1

/-- C4 witness. -/
theorem step_pure_of_current_witness :
    gridShape 2 2 [[0, 1], [1, 0]] ∧ gridShape 2 2 [[1, 1], [0, 0]] ∧
    ((computePhase 2 2 ([[1, 0], [0, 1]], [[0, 1], [1, 0]])).1 = [[1, 0], [0, 1]] ∧
     (computePhase 2 2 ([[1, 0], [0, 1]], [[0, 1], [1, 0]])).2 =
       (computePhase 2 2 ([[1, 0], [0, 1]], [[1, 1], [0, 0]])).2 ∧
     (computePhase 2 2 ([[1, 0], [0, 1]], [[0, 1], [1, 0]])).2 =
       stepGrid 2 2 [[1, 0], [0, 1]]) :=
  ⟨by decide, by decide,
    step_pure_of_current 2 2 [[1, 0], [0, 1]] [[0, 1], [1, 0]] [[1, 1], [0, 0]]
      (by decide) (by decide)⟩

/-- C5: after step-and-commit, every cell read from the current buffer is
exactly the value the step computed, and the whole current buffer equals
the computed next generation (prior current contents are gone). -/
theorem commit_semantics (rows cols : Nat) (g ng : Grid)
    (hng : gridShape rows cols ng) :
    ((updateGrid rows cols g ng).1 = stepGrid rows cols g ∧
     ∀ r c, r < rows → c < cols →
       gridGet (updateGrid rows cols g ng).1 r c = stepCell rows cols g r c) := by
  have h : (updateGrid rows cols g ng).1 = stepGrid rows cols g := by
    simpa only [updateGrid, computePhase] using
      updateStaging_eq_stepGrid rows cols g ng hng
  refine ⟨h, fun r c hr hc => ?_⟩
  rw [h, gridGet_stepGrid, if_pos ⟨hr, hc⟩]

/-- C5 witness. -/
theorem commit_semantics_witness :
    gridShape 2 2 [[1, 1], [1, 1]] ∧
    ((updateGrid 2 2 [[1, 0], [0, 1]] [[1, 1], [1, 1]]).1 =
       stepGrid 2 2 [[1, 0], [0, 1]] ∧
     ∀ r c, r < 2 → c < 2 →
       gridGet (updateGrid 2 2 [[1, 0], [0, 1]] [[1, 1], [1, 1]]).1 r c =
         stepCell 2 2 [[1, 0], [0, 1]] r c) :=
  ⟨by decide, commit_semantics 2 2 [[1, 0], [0, 1]] [[1, 1], [1, 1]] (by decide)⟩

/-- C6: an all-DEAD current generation steps to an all-DEAD next
generation. -/
theorem empty_grid_stable (rows cols : Nat) (g ng : Grid)
    (hng : gridShape rows cols ng)
    (hdead : ∀ r c, gridGet g r c = 0) :
    ∀ r c, gridGet (updateGrid rows cols g ng).1 r c = 0 := by
  intro r c
  have h : (updateGrid rows cols g ng).1 = stepGrid rows cols g := by
    simpa only [updateGrid, computePhase] using
      updateStaging_eq_stepGrid rows cols g ng hng
  rw [h, gridGet_stepGrid]
  split_ifs with hin
  · simp only [stepCell_eq, getNeighborCount, hdead]
    norm_num [List.countP, List.countP.go, neighborOffsets]
  · rfl

/-- C6 witness. -/
theorem empty_grid_stable_witness :
    gridShape 2 2 [[1, 1], [1, 1]] ∧ (∀ r c, gridGet [[0, 0], [0, 0]] r c = 0) ∧
    ∀ r c, gridGet (updateGrid 2 2 [[0, 0], [0, 0]] [[1, 1], [1, 1]]).1 r c = 0 := by
  have hdead : ∀ r c, gridGet [[0, 0], [0, 0]] r c = 0 := by
    intro r c
    simp only [gridGet]
    rcases r with _ | _ | r <;> rcases c with _ | _ | c <;> rfl
  exact ⟨by decide, hdead,
    empty_grid_stable 2 2 [[0, 0], [0, 0]] [[1, 1], [1, 1]] (by decide) hdead⟩

/-- Every cell of `g` is 0 or 1 (out-of-range reads default to 0). -/
def allBinary (g : Grid) : Prop :=
  ∀ r c, gridGet g r c = 0 ∨ gridGet g r c = 1

/-- C8: every cell holds a binary value: seeding, stepping and committing
each produce buffers whose every cell is 0 or 1. -/
theorem cells_binary (rows cols : Nat) (rand : Nat → Nat → Nat) (g ng : Grid)
    (hg : gridShape rows cols g) (hng : gridShape rows cols ng) :
    (allBinary (initGrid rows cols rand g) ∧
     allBinary (updateGrid rows cols g ng).1 ∧
     allBinary (updateGrid rows cols g ng).2) := by
  have hbin : ∀ f : Nat → Nat → Nat, (∀ r c, f r c = 0 ∨ f r c = 1) →
      allBinary (mkGrid rows cols f) := by
    intro f hf r c
    rw [gridGet_mkGrid]
    split_ifs with h
    · exact hf r c
    · exact Or.inl rfl
  have hstep : allBinary (stepGrid rows cols g) := by
    apply hbin
    intro r c
    rw [stepCell_eq]
    split_ifs <;> simp
  have hcommit : (updateGrid rows cols g ng).1 = stepGrid rows cols g := by
    simpa only [updateGrid, computePhase] using
      updateStaging_eq_stepGrid rows cols g ng hng
  have hcommit2 : (updateGrid rows cols g ng).2 = stepGrid rows cols g := by
    simpa only [updateGrid, computePhase] using
      updateStaging_eq_stepGrid rows cols g ng hng
  refine ⟨?_, ?_, ?_⟩
  · rw [initGrid, overwriteGrid_eq_mkGrid rows cols _ g hg]
    apply hbin
    intro r c
    split_ifs <;> simp
  · rw [hcommit]
    exact hstep
  · rw [hcommit2]
    exact hstep

/-- C8 witness. -/
theorem cells_binary_witness :
    gridShape 1 1 [[1]] ∧ gridShape 1 1 [[0]] ∧
    (allBinary (initGrid 1 1 (fun _ _ => 5) [[1]]) ∧
     allBinary (updateGrid 1 1 [[1]] [[0]]).1 ∧
     allBinary (updateGrid 1 1 [[1]] [[0]]).2) :=
  ⟨by decide, by decide,
    cells_binary 1 1 (fun _ _ => 5) [[1]] [[0]] (by decide) (by decide)⟩

/-- C9: SPACE (toggle-run) flips only `runSimulation` and leaves both
buffers untouched; R (reseed) reseeds the current buffer whatever the
value of `runSimulation` is, leaving `runSimulation` itself unchanged. -/
theorem toggle_and_reseed (rand : Nat → Nat → Nat) (s : AppState) :
    ((SDL_AppEvent rand s (.keyDown SDLK_SPACE)).runSimulation =
        !s.runSimulation ∧
     (SDL_AppEvent rand s (.keyDown SDLK_SPACE)).grid = s.grid ∧
     (SDL_AppEvent rand s (.keyDown SDLK_SPACE)).newGrid = s.newGrid ∧
     (SDL_AppEvent rand s (.keyDown SDLK_SPACE)).status = s.status ∧
     (∀ b : Bool,
        (SDL_AppEvent rand { s with runSimulation := b } (.keyDown SDLK_R)).grid =
          initGrid Rows Columns rand s.grid ∧
        (SDL_AppEvent rand { s with runSimulation := b } (.keyDown SDLK_R)).runSimulation =
          b)) := by
  refine ⟨rfl, rfl, rfl, rfl, fun b => ⟨?_, ?_⟩⟩ <;>
    simp [SDL_AppEvent, SDLK_SPACE, SDLK_R]

/-- C10: after `updateGrid`, the staging buffer holds exactly the same
contents as the (newly committed) current buffer, cell for cell — the new
generation, not stale data. -/
theorem staging_matches_current (rows cols : Nat) (g ng : Grid)
    (hng : gridShape rows cols ng) :
    ((updateGrid rows cols g ng).2 = (updateGrid rows cols g ng).1 ∧
     (updateGrid rows cols g ng).2 = stepGrid rows cols g ∧
     ∀ r c, gridGet (updateGrid rows cols g ng).2 r c =
       gridGet (updateGrid rows cols g ng).1 r c) := by
  refine ⟨rfl, ?_, fun r c => rfl⟩
  simpa only [updateGrid, computePhase] using
    updateStaging_eq_stepGrid rows cols g ng hng

/-- C10 witness. -/
theorem staging_matches_current_witness :
    gridShape 2 2 [[0, 1], [1, 0]] ∧
    ((updateGrid 2 2 [[1, 1], [1, 1]] [[0, 1], [1, 0]]).2 =
       (updateGrid 2 2 [[1, 1], [1, 1]] [[0, 1], [1, 0]]).1 ∧
     (updateGrid 2 2 [[1, 1], [1, 1]] [[0, 1], [1, 0]]).2 =
       stepGrid 2 2 [[1, 1], [1, 1]] ∧
     ∀ r c, gridGet (updateGrid 2 2 [[1, 1], [1, 1]] [[0, 1], [1, 0]]).2 r c =
       gridGet (updateGrid 2 2 [[1, 1], [1, 1]] [[0, 1], [1, 0]]).1 r c) :=
  ⟨by decide,
    staging_matches_current 2 2 [[1, 1], [1, 1]] [[0, 1], [1, 0]] (by decide)⟩

/-! ### Blinker oscillation -/

theorem ite_ite_ne_zero (A B : Prop) [Decidable A] [Decidable B] :
    ((if A then (if B then (1 : Nat) else 0) else 0) ≠ 0) ↔ (A ∧ B) := by
  split_ifs <;> simp_all

theorem hblinker_read (rows cols r c : Nat)
    (hr : 2 ≤ r) (hrr : r + 3 ≤ rows) (hc : 2 ≤ c) (hcc : c + 3 ≤ cols)
    (x y : Nat) (hx : x < rows) (hy : y < cols) (dr dc : Int)
    (hdr1 : -1 ≤ dr) (hdr2 : dr ≤ 1) (hdc1 : -1 ≤ dc) (hdc2 : dc ≤ 1) :
    (gridGet (hblinker rows cols r c)
        (wrapIndex x dr rows).toNat (wrapIndex y dc cols).toNat ≠ 0) ↔
      ((x : Int) + dr = (r : Int) ∧
        ((y : Int) + dc + 1 = (c : Int) ∨ (y : Int) + dc = (c : Int) ∨
          (y : Int) + dc = (c : Int) + 1)) := by
  simp only [hblinker]
  rw [gridGet_mkGrid,
    wrapIndex_spec x dr rows (by omega) (by positivity) (by exact_mod_cast hx) hdr1 hdr2,
    wrapIndex_spec y dc cols (by omega) (by positivity) (by exact_mod_cast hy) hdc1 hdc2]
  rw [ite_ite_ne_zero]
  split_ifs <;> omega

theorem vblinker_read (rows cols r c : Nat)
    (hr : 2 ≤ r) (hrr : r + 3 ≤ rows) (hc : 2 ≤ c) (hcc : c + 3 ≤ cols)
    (x y : Nat) (hx : x < rows) (hy : y < cols) (dr dc : Int)
    (hdr1 : -1 ≤ dr) (hdr2 : dr ≤ 1) (hdc1 : -1 ≤ dc) (hdc2 : dc ≤ 1) :
    (gridGet (vblinker rows cols r c)
        (wrapIndex x dr rows).toNat (wrapIndex y dc cols).toNat ≠ 0) ↔
      ((y : Int) + dc = (c : Int) ∧
        ((x : Int) + dr + 1 = (r : Int) ∨ (x : Int) + dr = (r : Int) ∨
          (x : Int) + dr = (r : Int) + 1)) := by
  simp only [vblinker]
  rw [gridGet_mkGrid,
    wrapIndex_spec x dr rows (by omega) (by positivity) (by exact_mod_cast hx) hdr1 hdr2,
    wrapIndex_spec y dc cols (by omega) (by positivity) (by exact_mod_cast hy) hdc1 hdc2]
  rw [ite_ite_ne_zero]
  split_ifs <;> omega

theorem count_hblinker (rows cols r c : Nat)
    (hr : 2 ≤ r) (hrr : r + 3 ≤ rows) (hc : 2 ≤ c) (hcc : c + 3 ≤ cols)
    (x y : Nat) (hx : x < rows) (hy : y < cols) :
    getNeighborCount rows cols (hblinker rows cols r c) x y =
      neighborOffsets.countP (fun o =>
        decide (((x : Int) + o.1 = (r : Int)) ∧
          ((y : Int) + o.2 + 1 = (c : Int) ∨ (y : Int) + o.2 = (c : Int) ∨
            (y : Int) + o.2 = (c : Int) + 1))) := by
  unfold getNeighborCount
  apply List.countP_congr
  intro o ho
  have hbounds : -1 ≤ o.1 ∧ o.1 ≤ 1 ∧ -1 ≤ o.2 ∧ o.2 ≤ 1 :=
    neighborOffsets_bounded o ho
  simp only [bne_iff_ne, decide_eq_true_eq]
  exact hblinker_read rows cols r c hr hrr hc hcc x y hx hy o.1 o.2
    hbounds.1 hbounds.2.1 hbounds.2.2.1 hbounds.2.2.2

theorem count_vblinker (rows cols r c : Nat)
    (hr : 2 ≤ r) (hrr : r + 3 ≤ rows) (hc : 2 ≤ c) (hcc : c + 3 ≤ cols)
    (x y : Nat) (hx : x < rows) (hy : y < cols) :
    getNeighborCount rows cols (vblinker rows cols r c) x y =
      neighborOffsets.countP (fun o =>
        decide (((y : Int) + o.2 = (c : Int)) ∧
          ((x : Int) + o.1 + 1 = (r : Int) ∨ (x : Int) + o.1 = (r : Int) ∨
            (x : Int) + o.1 = (r : Int) + 1))) := by
  unfold getNeighborCount
  apply List.countP_congr
  intro o ho
  have hbounds : -1 ≤ o.1 ∧ o.1 ≤ 1 ∧ -1 ≤ o.2 ∧ o.2 ≤ 1 :=
    neighborOffsets_bounded o ho
  simp only [bne_iff_ne, decide_eq_true_eq]
  exact vblinker_read rows cols r c hr hrr hc hcc x y hx hy o.1 o.2
    hbounds.1 hbounds.2.1 hbounds.2.2.1 hbounds.2.2.2

theorem mkGrid_congr (rows cols : Nat) (f g : Nat → Nat → Nat)
    (h : ∀ x, x < rows → ∀ y, y < cols → f x y = g x y) :
    mkGrid rows cols f = mkGrid rows cols g := by
  unfold mkGrid
  apply List.map_congr_left
  intro a ha
  rw [List.mem_range] at ha
  apply List.map_congr_left
  intro b hb
  rw [List.mem_range] at hb
  exact h a ha b hb

set_option maxHeartbeats 1600000 in
theorem stepCell_hblinker (rows cols r c : Nat)
    (hr : 2 ≤ r) (hrr : r + 3 ≤ rows) (hc : 2 ≤ c) (hcc : c + 3 ≤ cols)
    (x y : Nat) (hx : x < rows) (hy : y < cols) :
    stepCell rows cols (hblinker rows cols r c) x y =
      if y = c ∧ (x + 1 = r ∨ x = r ∨ x = r + 1) then 1 else 0 := by
  have hget : gridGet (hblinker rows cols r c) x y =
      if x = r ∧ (y + 1 = c ∨ y = c ∨ y = c + 1) then 1 else 0 := by
    simp only [hblinker]
    rw [gridGet_mkGrid, if_pos ⟨hx, hy⟩]
  rw [stepCell_eq, count_hblinker rows cols r c hr hrr hc hcc x y hx hy, hget]
  simp only [neighborOffsets, List.countP_cons, List.countP_nil,
    decide_eq_true_eq]
  have hxcase : (x : Int) + 1 = (r : Int) ∨ (x : Int) = (r : Int) ∨
      (x : Int) = (r : Int) + 1 ∨ ((x : Int) + 1 < (r : Int) ∨ (x : Int) > (r : Int) + 1) := by
    omega
  have hycase : (y : Int) + 2 = (c : Int) ∨ (y : Int) + 1 = (c : Int) ∨
      (y : Int) = (c : Int) ∨ (y : Int) = (c : Int) + 1 ∨ (y : Int) = (c : Int) + 2 ∨
      ((y : Int) + 2 < (c : Int) ∨ (y : Int) > (c : Int) + 2) := by
    omega
  rcases hxcase with ha | ha | ha | ha
  · rcases hycase with hb | hb | hb | hb | hb | hb
    · rw [if_pos (show (x : Int) + 1 = (r : Int) ∧ ((y : Int) + 1 + 1 = (c : Int) ∨ (y : Int) + 1 = (c : Int) ∨ (y : Int) + 1 = (c : Int) + 1) by omega),
        if_neg (show ¬((x : Int) + 1 = (r : Int) ∧ ((y : Int) + 0 + 1 = (c : Int) ∨ (y : Int) + 0 = (c : Int) ∨ (y : Int) + 0 = (c : Int) + 1)) by omega),
        if_neg (show ¬((x : Int) + 1 = (r : Int) ∧ ((y : Int) + -1 + 1 = (c : Int) ∨ (y : Int) + -1 = (c : Int) ∨ (y : Int) + -1 = (c : Int) + 1)) by omega),
        if_neg (show ¬((x : Int) + 0 = (r : Int) ∧ ((y : Int) + 1 + 1 = (c : Int) ∨ (y : Int) + 1 = (c : Int) ∨ (y : Int) + 1 = (c : Int) + 1)) by omega),
        if_neg (show ¬((x : Int) + 0 = (r : Int) ∧ ((y : Int) + -1 + 1 = (c : Int) ∨ (y : Int) + -1 = (c : Int) ∨ (y : Int) + -1 = (c : Int) + 1)) by omega),
        if_neg (show ¬((x : Int) + -1 = (r : Int) ∧ ((y : Int) + 1 + 1 = (c : Int) ∨ (y : Int) + 1 = (c : Int) ∨ (y : Int) + 1 = (c : Int) + 1)) by omega),
        if_neg (show ¬((x : Int) + -1 = (r : Int) ∧ ((y : Int) + 0 + 1 = (c : Int) ∨ (y : Int) + 0 = (c : Int) ∨ (y : Int) + 0 = (c : Int) + 1)) by omega),
        if_neg (show ¬((x : Int) + -1 = (r : Int) ∧ ((y : Int) + -1 + 1 = (c : Int) ∨ (y : Int) + -1 = (c : Int) ∨ (y : Int) + -1 = (c : Int) + 1)) by omega),
        if_neg (show ¬(x = r ∧ (y + 1 = c ∨ y = c ∨ y = c + 1)) by omega),
        if_neg (show ¬(y = c ∧ (x + 1 = r ∨ x = r ∨ x = r + 1)) by omega)]
      norm_num
    · rw [if_pos (show (x : Int) + 1 = (r : Int) ∧ ((y : Int) + 1 + 1 = (c : Int) ∨ (y : Int) + 1 = (c : Int) ∨ (y : Int) + 1 = (c : Int) + 1) by omega),
        if_pos (show (x : Int) + 1 = (r : Int) ∧ ((y : Int) + 0 + 1 = (c : Int) ∨ (y : Int) + 0 = (c : Int) ∨ (y : Int) + 0 = (c : Int) + 1) by omega),
        if_neg (show ¬((x : Int) + 1 = (r : Int) ∧ ((y : Int) + -1 + 1 = (c : Int) ∨ (y : Int) + -1 = (c : Int) ∨ (y : Int) + -1 = (c : Int) + 1)) by omega),
        if_neg (show ¬((x : Int) + 0 = (r : Int) ∧ ((y : Int) + 1 + 1 = (c : Int) ∨ (y : Int) + 1 = (c : Int) ∨ (y : Int) + 1 = (c : Int) + 1)) by omega),
        if_neg (show ¬((x : Int) + 0 = (r : Int) ∧ ((y : Int) + -1 + 1 = (c : Int) ∨ (y : Int) + -1 = (c : Int) ∨ (y : Int) + -1 = (c : Int) + 1)) by omega),
        if_neg (show ¬((x : Int) + -1 = (r : Int) ∧ ((y : Int) + 1 + 1 = (c : Int) ∨ (y : Int) + 1 = (c : Int) ∨ (y : Int) + 1 = (c : Int) + 1)) by omega),
        if_neg (show ¬((x : Int) + -1 = (r : Int) ∧ ((y : Int) + 0 + 1 = (c : Int) ∨ (y : Int) + 0 = (c : Int) ∨ (y : Int) + 0 = (c : Int) + 1)) by omega),
        if_neg (show ¬((x : Int) + -1 = (r : Int) ∧ ((y : Int) + -1 + 1 = (c : Int) ∨ (y : Int) + -1 = (c : Int) ∨ (y : Int) + -1 = (c : Int) + 1)) by omega),
        if_neg (show ¬(x = r ∧ (y + 1 = c ∨ y = c ∨ y = c + 1)) by omega),
        if_neg (show ¬(y = c ∧ (x + 1 = r ∨ x = r ∨ x = r + 1)) by omega)]
      norm_num
    · rw [if_pos (show (x : Int) + 1 = (r : Int) ∧ ((y : Int) + 1 + 1 = (c : Int) ∨ (y : Int) + 1 = (c : Int) ∨ (y : Int) + 1 = (c : Int) + 1) by omega),
        if_pos (show (x : Int) + 1 = (r : Int) ∧ ((y : Int) + 0 + 1 = (c : Int) ∨ (y : Int) + 0 = (c : Int) ∨ (y : Int) + 0 = (c : Int) + 1) by omega),
        if_pos (show (x : Int) + 1 = (r : Int) ∧ ((y : Int) + -1 + 1 = (c : Int) ∨ (y : Int) + -1 = (c : Int) ∨ (y : Int) + -1 = (c : Int) + 1) by omega),
        if_neg (show ¬((x : Int) + 0 = (r : Int) ∧ ((y : Int) + 1 + 1 = (c : Int) ∨ (y : Int) + 1 = (c : Int) ∨ (y : Int) + 1 = (c : Int) + 1)) by omega),
        if_neg (show ¬((x : Int) + 0 = (r : Int) ∧ ((y : Int) + -1 + 1 = (c : Int) ∨ (y : Int) + -1 = (c : Int) ∨ (y : Int) + -1 = (c : Int) + 1)) by omega),
        if_neg (show ¬((x : Int) + -1 = (r : Int) ∧ ((y : Int) + 1 + 1 = (c : Int) ∨ (y : Int) + 1 = (c : Int) ∨ (y : Int) + 1 = (c : Int) + 1)) by omega),
        if_neg (show ¬((x : Int) + -1 = (r : Int) ∧ ((y : Int) + 0 + 1 = (c : Int) ∨ (y : Int) + 0 = (c : Int) ∨ (y : Int) + 0 = (c : Int) + 1)) by omega),
        if_neg (show ¬((x : Int) + -1 = (r : Int) ∧ ((y : Int) + -1 + 1 = (c : Int) ∨ (y : Int) + -1 = (c : Int) ∨ (y : Int) + -1 = (c : Int) + 1)) by omega),
        if_neg (show ¬(x = r ∧ (y + 1 = c ∨ y = c ∨ y = c + 1)) by omega),
        if_pos (show y = c ∧ (x + 1 = r ∨ x = r ∨ x = r + 1) by omega)]
      norm_num
    · rw [if_neg (show ¬((x : Int) + 1 = (r : Int) ∧ ((y : Int) + 1 + 1 = (c : Int) ∨ (y : Int) + 1 = (c : Int) ∨ (y : Int) + 1 = (c : Int) + 1)) by omega),
        if_pos (show (x : Int) + 1 = (r : Int) ∧ ((y : Int) + 0 + 1 = (c : Int) ∨ (y : Int) + 0 = (c : Int) ∨ (y : Int) + 0 = (c : Int) + 1) by omega),
        if_pos (show (x : Int) + 1 = (r : Int) ∧ ((y : Int) + -1 + 1 = (c : Int) ∨ (y : Int) + -1 = (c : Int) ∨ (y : Int) + -1 = (c : Int) + 1) by omega),
        if_neg (show ¬((x : Int) + 0 = (r : Int) ∧ ((y : Int) + 1 + 1 = (c : Int) ∨ (y : Int) + 1 = (c : Int) ∨ (y : Int) + 1 = (c : Int) + 1)) by omega),
        if_neg (show ¬((x : Int) + 0 = (r : Int) ∧ ((y : Int) + -1 + 1 = (c : Int) ∨ (y : Int) + -1 = (c : Int) ∨ (y : Int) + -1 = (c : Int) + 1)) by omega),
        if_neg (show ¬((x : Int) + -1 = (r : Int) ∧ ((y : Int) + 1 + 1 = (c : Int) ∨ (y : Int) + 1 = (c : Int) ∨ (y : Int) + 1 = (c : Int) + 1)) by omega),
        if_neg (show ¬((x : Int) + -1 = (r : Int) ∧ ((y : Int) + 0 + 1 = (c : Int) ∨ (y : Int) + 0 = (c : Int) ∨ (y : Int) + 0 = (c : Int) + 1)) by omega),
        if_neg (show ¬((x : Int) + -1 = (r : Int) ∧ ((y : Int) + -1 + 1 = (c : Int) ∨ (y : Int) + -1 = (c : Int) ∨ (y : Int) + -1 = (c : Int) + 1)) by omega),
        if_neg (show ¬(x = r ∧ (y + 1 = c ∨ y = c ∨ y = c + 1)) by omega),
        if_neg (show ¬(y = c ∧ (x + 1 = r ∨ x = r ∨ x = r + 1)) by omega)]
      norm_num
    · rw [if_neg (show ¬((x : Int) + 1 = (r : Int) ∧ ((y : Int) + 1 + 1 = (c : Int) ∨ (y : Int) + 1 = (c : Int) ∨ (y : Int) + 1 = (c : Int) + 1)) by omega),
        if_neg (show ¬((x : Int) + 1 = (r : Int) ∧ ((y : Int) + 0 + 1 = (c : Int) ∨ (y : Int) + 0 = (c : Int) ∨ (y : Int) + 0 = (c : Int) + 1)) by omega),
        if_pos (show (x : Int) + 1 = (r : Int) ∧ ((y : Int) + -1 + 1 = (c : Int) ∨ (y : Int) + -1 = (c : Int) ∨ (y : Int) + -1 = (c : Int) + 1) by omega),
        if_neg (show ¬((x : Int) + 0 = (r : Int) ∧ ((y : Int) + 1 + 1 = (c : Int) ∨ (y : Int) + 1 = (c : Int) ∨ (y : Int) + 1 = (c : Int) + 1)) by omega),
        if_neg (show ¬((x : Int) + 0 = (r : Int) ∧ ((y : Int) + -1 + 1 = (c : Int) ∨ (y : Int) + -1 = (c : Int) ∨ (y : Int) + -1 = (c : Int) + 1)) by omega),
        if_neg (show ¬((x : Int) + -1 = (r : Int) ∧ ((y : Int) + 1 + 1 = (c : Int) ∨ (y : Int) + 1 = (c : Int) ∨ (y : Int) + 1 = (c : Int) + 1)) by omega),
        if_neg (show ¬((x : Int) + -1 = (r : Int) ∧ ((y : Int) + 0 + 1 = (c : Int) ∨ (y : Int) + 0 = (c : Int) ∨ (y : Int) + 0 = (c : Int) + 1)) by omega),
        if_neg (show ¬((x : Int) + -1 = (r : Int) ∧ ((y : Int) + -1 + 1 = (c : Int) ∨ (y : Int) + -1 = (c : Int) ∨ (y : Int) + -1 = (c : Int) + 1)) by omega),
        if_neg (show ¬(x = r ∧ (y + 1 = c ∨ y = c ∨ y = c + 1)) by omega),
        if_neg (show ¬(y = c ∧ (x + 1 = r ∨ x = r ∨ x = r + 1)) by omega)]
      norm_num
    · rw [if_neg (show ¬((x : Int) + 1 = (r : Int) ∧ ((y : Int) + 1 + 1 = (c : Int) ∨ (y : Int) + 1 = (c : Int) ∨ (y : Int) + 1 = (c : Int) + 1)) by omega),
        if_neg (show ¬((x : Int) + 1 = (r : Int) ∧ ((y : Int) + 0 + 1 = (c : Int) ∨ (y : Int) + 0 = (c : Int) ∨ (y : Int) + 0 = (c : Int) + 1)) by omega),
        if_neg (show ¬((x : Int) + 1 = (r : Int) ∧ ((y : Int) + -1 + 1 = (c : Int) ∨ (y : Int) + -1 = (c : Int) ∨ (y : Int) + -1 = (c : Int) + 1)) by omega),
        if_neg (show ¬((x : Int) + 0 = (r : Int) ∧ ((y : Int) + 1 + 1 = (c : Int) ∨ (y : Int) + 1 = (c : Int) ∨ (y : Int) + 1 = (c : Int) + 1)) by omega),
        if_neg (show ¬((x : Int) + 0 = (r : Int) ∧ ((y : Int) + -1 + 1 = (c : Int) ∨ (y : Int) + -1 = (c : Int) ∨ (y : Int) + -1 = (c : Int) + 1)) by omega),
        if_neg (show ¬((x : Int) + -1 = (r : Int) ∧ ((y : Int) + 1 + 1 = (c : Int) ∨ (y : Int) + 1 = (c : Int) ∨ (y : Int) + 1 = (c : Int) + 1)) by omega),
        if_neg (show ¬((x : Int) + -1 = (r : Int) ∧ ((y : Int) + 0 + 1 = (c : Int) ∨ (y : Int) + 0 = (c : Int) ∨ (y : Int) + 0 = (c : Int) + 1)) by omega),
        if_neg (show ¬((x : Int) + -1 = (r : Int) ∧ ((y : Int) + -1 + 1 = (c : Int) ∨ (y : Int) + -1 = (c : Int) ∨ (y : Int) + -1 = (c : Int) + 1)) by omega),
        if_neg (show ¬(x = r ∧ (y + 1 = c ∨ y = c ∨ y = c + 1)) by omega),
        if_neg (show ¬(y = c ∧ (x + 1 = r ∨ x = r ∨ x = r + 1)) by omega)]
      norm_num
  · rcases hycase with hb | hb | hb | hb | hb | hb
    · rw [if_neg (show ¬((x : Int) + 1 = (r : Int) ∧ ((y : Int) + 1 + 1 = (c : Int) ∨ (y : Int) + 1 = (c : Int) ∨ (y : Int) + 1 = (c : Int) + 1)) by omega),
        if_neg (show ¬((x : Int) + 1 = (r : Int) ∧ ((y : Int) + 0 + 1 = (c : Int) ∨ (y : Int) + 0 = (c : Int) ∨ (y : Int) + 0 = (c : Int) + 1)) by omega),
        if_neg (show ¬((x : Int) + 1 = (r : Int) ∧ ((y : Int) + -1 + 1 = (c : Int) ∨ (y : Int) + -1 = (c : Int) ∨ (y : Int) + -1 = (c : Int) + 1)) by omega),
        if_pos (show (x : Int) + 0 = (r : Int) ∧ ((y : Int) + 1 + 1 = (c : Int) ∨ (y : Int) + 1 = (c : Int) ∨ (y : Int) + 1 = (c : Int) + 1) by omega),
        if_neg (show ¬((x : Int) + 0 = (r : Int) ∧ ((y : Int) + -1 + 1 = (c : Int) ∨ (y : Int) + -1 = (c : Int) ∨ (y : Int) + -1 = (c : Int) + 1)) by omega),
        if_neg (show ¬((x : Int) + -1 = (r : Int) ∧ ((y : Int) + 1 + 1 = (c : Int) ∨ (y : Int) + 1 = (c : Int) ∨ (y : Int) + 1 = (c : Int) + 1)) by omega),
        if_neg (show ¬((x : Int) + -1 = (r : Int) ∧ ((y : Int) + 0 + 1 = (c : Int) ∨ (y : Int) + 0 = (c : Int) ∨ (y : Int) + 0 = (c : Int) + 1)) by omega),
        if_neg (show ¬((x : Int) + -1 = (r : Int) ∧ ((y : Int) + -1 + 1 = (c : Int) ∨ (y : Int) + -1 = (c : Int) ∨ (y : Int) + -1 = (c : Int) + 1)) by omega),
        if_neg (show ¬(x = r ∧ (y + 1 = c ∨ y = c ∨ y = c + 1)) by omega),
        if_neg (show ¬(y = c ∧ (x + 1 = r ∨ x = r ∨ x = r + 1)) by omega)]
      norm_num
    · rw [if_neg (show ¬((x : Int) + 1 = (r : Int) ∧ ((y : Int) + 1 + 1 = (c : Int) ∨ (y : Int) + 1 = (c : Int) ∨ (y : Int) + 1 = (c : Int) + 1)) by omega),
        if_neg (show ¬((x : Int) + 1 = (r : Int) ∧ ((y : Int) + 0 + 1 = (c : Int) ∨ (y : Int) + 0 = (c : Int) ∨ (y : Int) + 0 = (c : Int) + 1)) by omega),
        if_neg (show ¬((x : Int) + 1 = (r : Int) ∧ ((y : Int) + -1 + 1 = (c : Int) ∨ (y : Int) + -1 = (c : Int) ∨ (y : Int) + -1 = (c : Int) + 1)) by omega),
        if_pos (show (x : Int) + 0 = (r : Int) ∧ ((y : Int) + 1 + 1 = (c : Int) ∨ (y : Int) + 1 = (c : Int) ∨ (y : Int) + 1 = (c : Int) + 1) by omega),
        if_neg (show ¬((x : Int) + 0 = (r : Int) ∧ ((y : Int) + -1 + 1 = (c : Int) ∨ (y : Int) + -1 = (c : Int) ∨ (y : Int) + -1 = (c : Int) + 1)) by omega),
        if_neg (show ¬((x : Int) + -1 = (r : Int) ∧ ((y : Int) + 1 + 1 = (c : Int) ∨ (y : Int) + 1 = (c : Int) ∨ (y : Int) + 1 = (c : Int) + 1)) by omega),
        if_neg (show ¬((x : Int) + -1 = (r : Int) ∧ ((y : Int) + 0 + 1 = (c : Int) ∨ (y : Int) + 0 = (c : Int) ∨ (y : Int) + 0 = (c : Int) + 1)) by omega),
        if_neg (show ¬((x : Int) + -1 = (r : Int) ∧ ((y : Int) + -1 + 1 = (c : Int) ∨ (y : Int) + -1 = (c : Int) ∨ (y : Int) + -1 = (c : Int) + 1)) by omega),
        if_pos (show x = r ∧ (y + 1 = c ∨ y = c ∨ y = c + 1) by omega),
        if_neg (show ¬(y = c ∧ (x + 1 = r ∨ x = r ∨ x = r + 1)) by omega)]
      norm_num
    · rw [if_neg (show ¬((x : Int) + 1 = (r : Int) ∧ ((y : Int) + 1 + 1 = (c : Int) ∨ (y : Int) + 1 = (c : Int) ∨ (y : Int) + 1 = (c : Int) + 1)) by omega),
        if_neg (show ¬((x : Int) + 1 = (r : Int) ∧ ((y : Int) + 0 + 1 = (c : Int) ∨ (y : Int) + 0 = (c : Int) ∨ (y : Int) + 0 = (c : Int) + 1)) by omega),
        if_neg (show ¬((x : Int) + 1 = (r : Int) ∧ ((y : Int) + -1 + 1 = (c : Int) ∨ (y : Int) + -1 = (c : Int) ∨ (y : Int) + -1 = (c : Int) + 1)) by omega),
        if_pos (show (x : Int) + 0 = (r : Int) ∧ ((y : Int) + 1 + 1 = (c : Int) ∨ (y : Int) + 1 = (c : Int) ∨ (y : Int) + 1 = (c : Int) + 1) by omega),
        if_pos (show (x : Int) + 0 = (r : Int) ∧ ((y : Int) + -1 + 1 = (c : Int) ∨ (y : Int) + -1 = (c : Int) ∨ (y : Int) + -1 = (c : Int) + 1) by omega),
        if_neg (show ¬((x : Int) + -1 = (r : Int) ∧ ((y : Int) + 1 + 1 = (c : Int) ∨ (y : Int) + 1 = (c : Int) ∨ (y : Int) + 1 = (c : Int) + 1)) by omega),
        if_neg (show ¬((x : Int) + -1 = (r : Int) ∧ ((y : Int) + 0 + 1 = (c : Int) ∨ (y : Int) + 0 = (c : Int) ∨ (y : Int) + 0 = (c : Int) + 1)) by omega),
        if_neg (show ¬((x : Int) + -1 = (r : Int) ∧ ((y : Int) + -1 + 1 = (c : Int) ∨ (y : Int) + -1 = (c : Int) ∨ (y : Int) + -1 = (c : Int) + 1)) by omega),
        if_pos (show x = r ∧ (y + 1 = c ∨ y = c ∨ y = c + 1) by omega),
        if_pos (show y = c ∧ (x + 1 = r ∨ x = r ∨ x = r + 1) by omega)]
      norm_num
    · rw [if_neg (show ¬((x : Int) + 1 = (r : Int) ∧ ((y : Int) + 1 + 1 = (c : Int) ∨ (y : Int) + 1 = (c : Int) ∨ (y : Int) + 1 = (c : Int) + 1)) by omega),
        if_neg (show ¬((x : Int) + 1 = (r : Int) ∧ ((y : Int) + 0 + 1 = (c : Int) ∨ (y : Int) + 0 = (c : Int) ∨ (y : Int) + 0 = (c : Int) + 1)) by omega),
        if_neg (show ¬((x : Int) + 1 = (r : Int) ∧ ((y : Int) + -1 + 1 = (c : Int) ∨ (y : Int) + -1 = (c : Int) ∨ (y : Int) + -1 = (c : Int) + 1)) by omega),
        if_neg (show ¬((x : Int) + 0 = (r : Int) ∧ ((y : Int) + 1 + 1 = (c : Int) ∨ (y : Int) + 1 = (c : Int) ∨ (y : Int) + 1 = (c : Int) + 1)) by omega),
        if_pos (show (x : Int) + 0 = (r : Int) ∧ ((y : Int) + -1 + 1 = (c : Int) ∨ (y : Int) + -1 = (c : Int) ∨ (y : Int) + -1 = (c : Int) + 1) by omega),
        if_neg (show ¬((x : Int) + -1 = (r : Int) ∧ ((y : Int) + 1 + 1 = (c : Int) ∨ (y : Int) + 1 = (c : Int) ∨ (y : Int) + 1 = (c : Int) + 1)) by omega),
        if_neg (show ¬((x : Int) + -1 = (r : Int) ∧ ((y : Int) + 0 + 1 = (c : Int) ∨ (y : Int) + 0 = (c : Int) ∨ (y : Int) + 0 = (c : Int) + 1)) by omega),
        if_neg (show ¬((x : Int) + -1 = (r : Int) ∧ ((y : Int) + -1 + 1 = (c : Int) ∨ (y : Int) + -1 = (c : Int) ∨ (y : Int) + -1 = (c : Int) + 1)) by omega),
        if_pos (show x = r ∧ (y + 1 = c ∨ y = c ∨ y = c + 1) by omega),
        if_neg (show ¬(y = c ∧ (x + 1 = r ∨ x = r ∨ x = r + 1)) by omega)]
      norm_num
    · rw [if_neg (show ¬((x : Int) + 1 = (r : Int) ∧ ((y : Int) + 1 + 1 = (c : Int) ∨ (y : Int) + 1 = (c : Int) ∨ (y : Int) + 1 = (c : Int) + 1)) by omega),
        if_neg (show ¬((x : Int) + 1 = (r : Int) ∧ ((y : Int) + 0 + 1 = (c : Int) ∨ (y : Int) + 0 = (c : Int) ∨ (y : Int) + 0 = (c : Int) + 1)) by omega),
        if_neg (show ¬((x : Int) + 1 = (r : Int) ∧ ((y : Int) + -1 + 1 = (c : Int) ∨ (y : Int) + -1 = (c : Int) ∨ (y : Int) + -1 = (c : Int) + 1)) by omega),
        if_neg (show ¬((x : Int) + 0 = (r : Int) ∧ ((y : Int) + 1 + 1 = (c : Int) ∨ (y : Int) + 1 = (c : Int) ∨ (y : Int) + 1 = (c : Int) + 1)) by omega),
        if_pos (show (x : Int) + 0 = (r : Int) ∧ ((y : Int) + -1 + 1 = (c : Int) ∨ (y : Int) + -1 = (c : Int) ∨ (y : Int) + -1 = (c : Int) + 1) by omega),
        if_neg (show ¬((x : Int) + -1 = (r : Int) ∧ ((y : Int) + 1 + 1 = (c : Int) ∨ (y : Int) + 1 = (c : Int) ∨ (y : Int) + 1 = (c : Int) + 1)) by omega),
        if_neg (show ¬((x : Int) + -1 = (r : Int) ∧ ((y : Int) + 0 + 1 = (c : Int) ∨ (y : Int) + 0 = (c : Int) ∨ (y : Int) + 0 = (c : Int) + 1)) by omega),
        if_neg (show ¬((x : Int) + -1 = (r : Int) ∧ ((y : Int) + -1 + 1 = (c : Int) ∨ (y : Int) + -1 = (c : Int) ∨ (y : Int) + -1 = (c : Int) + 1)) by omega),
        if_neg (show ¬(x = r ∧ (y + 1 = c ∨ y = c ∨ y = c + 1)) by omega),
        if_neg (show ¬(y = c ∧ (x + 1 = r ∨ x = r ∨ x = r + 1)) by omega)]
      norm_num
    · rw [if_neg (show ¬((x : Int) + 1 = (r : Int) ∧ ((y : Int) + 1 + 1 = (c : Int) ∨ (y : Int) + 1 = (c : Int) ∨ (y : Int) + 1 = (c : Int) + 1)) by omega),
        if_neg (show ¬((x : Int) + 1 = (r : Int) ∧ ((y : Int) + 0 + 1 = (c : Int) ∨ (y : Int) + 0 = (c : Int) ∨ (y : Int) + 0 = (c : Int) + 1)) by omega),
        if_neg (show ¬((x : Int) + 1 = (r : Int) ∧ ((y : Int) + -1 + 1 = (c : Int) ∨ (y : Int) + -1 = (c : Int) ∨ (y : Int) + -1 = (c : Int) + 1)) by omega),
        if_neg (show ¬((x : Int) + 0 = (r : Int) ∧ ((y : Int) + 1 + 1 = (c : Int) ∨ (y : Int) + 1 = (c : Int) ∨ (y : Int) + 1 = (c : Int) + 1)) by omega),
        if_neg (show ¬((x : Int) + 0 = (r : Int) ∧ ((y : Int) + -1 + 1 = (c : Int) ∨ (y : Int) + -1 = (c : Int) ∨ (y : Int) + -1 = (c : Int) + 1)) by omega),
        if_neg (show ¬((x : Int) + -1 = (r : Int) ∧ ((y : Int) + 1 + 1 = (c : Int) ∨ (y : Int) + 1 = (c : Int) ∨ (y : Int) + 1 = (c : Int) + 1)) by omega),
        if_neg (show ¬((x : Int) + -1 = (r : Int) ∧ ((y : Int) + 0 + 1 = (c : Int) ∨ (y : Int) + 0 = (c : Int) ∨ (y : Int) + 0 = (c : Int) + 1)) by omega),
        if_neg (show ¬((x : Int) + -1 = (r : Int) ∧ ((y : Int) + -1 + 1 = (c : Int) ∨ (y : Int) + -1 = (c : Int) ∨ (y : Int) + -1 = (c : Int) + 1)) by omega),
        if_neg (show ¬(x = r ∧ (y + 1 = c ∨ y = c ∨ y = c + 1)) by omega),
        if_neg (show ¬(y = c ∧ (x + 1 = r ∨ x = r ∨ x = r + 1)) by omega)]
      norm_num
  · rcases hycase with hb | hb | hb | hb | hb | hb
    · rw [if_neg (show ¬((x : Int) + 1 = (r : Int) ∧ ((y : Int) + 1 + 1 = (c : Int) ∨ (y : Int) + 1 = (c : Int) ∨ (y : Int) + 1 = (c : Int) + 1)) by omega),
        if_neg (show ¬((x : Int) + 1 = (r : Int) ∧ ((y : Int) + 0 + 1 = (c : Int) ∨ (y : Int) + 0 = (c : Int) ∨ (y : Int) + 0 = (c : Int) + 1)) by omega),
        if_neg (show ¬((x : Int) + 1 = (r : Int) ∧ ((y : Int) + -1 + 1 = (c : Int) ∨ (y : Int) + -1 = (c : Int) ∨ (y : Int) + -1 = (c : Int) + 1)) by omega),
        if_neg (show ¬((x : Int) + 0 = (r : Int) ∧ ((y : Int) + 1 + 1 = (c : Int) ∨ (y : Int) + 1 = (c : Int) ∨ (y : Int) + 1 = (c : Int) + 1)) by omega),
        if_neg (show ¬((x : Int) + 0 = (r : Int) ∧ ((y : Int) + -1 + 1 = (c : Int) ∨ (y : Int) + -1 = (c : Int) ∨ (y : Int) + -1 = (c : Int) + 1)) by omega),
        if_pos (show (x : Int) + -1 = (r : Int) ∧ ((y : Int) + 1 + 1 = (c : Int) ∨ (y : Int) + 1 = (c : Int) ∨ (y : Int) + 1 = (c : Int) + 1) by omega),
        if_neg (show ¬((x : Int) + -1 = (r : Int) ∧ ((y : Int) + 0 + 1 = (c : Int) ∨ (y : Int) + 0 = (c : Int) ∨ (y : Int) + 0 = (c : Int) + 1)) by omega),
        if_neg (show ¬((x : Int) + -1 = (r : Int) ∧ ((y : Int) + -1 + 1 = (c : Int) ∨ (y : Int) + -1 = (c : Int) ∨ (y : Int) + -1 = (c : Int) + 1)) by omega),
        if_neg (show ¬(x = r ∧ (y + 1 = c ∨ y = c ∨ y = c + 1)) by omega),
        if_neg (show ¬(y = c ∧ (x + 1 = r ∨ x = r ∨ x = r + 1)) by omega)]
      norm_num
    · rw [if_neg (show ¬((x : Int) + 1 = (r : Int) ∧ ((y : Int) + 1 + 1 = (c : Int) ∨ (y : Int) + 1 = (c : Int) ∨ (y : Int) + 1 = (c : Int) + 1)) by omega),
        if_neg (show ¬((x : Int) + 1 = (r : Int) ∧ ((y : Int) + 0 + 1 = (c : Int) ∨ (y : Int) + 0 = (c : Int) ∨ (y : Int) + 0 = (c : Int) + 1)) by omega),
        if_neg (show ¬((x : Int) + 1 = (r : Int) ∧ ((y : Int) + -1 + 1 = (c : Int) ∨ (y : Int) + -1 = (c : Int) ∨ (y : Int) + -1 = (c : Int) + 1)) by omega),
        if_neg (show ¬((x : Int) + 0 = (r : Int) ∧ ((y : Int) + 1 + 1 = (c : Int) ∨ (y : Int) + 1 = (c : Int) ∨ (y : Int) + 1 = (c : Int) + 1)) by omega),
        if_neg (show ¬((x : Int) + 0 = (r : Int) ∧ ((y : Int) + -1 + 1 = (c : Int) ∨ (y : Int) + -1 = (c : Int) ∨ (y : Int) + -1 = (c : Int) + 1)) by omega),
        if_pos (show (x : Int) + -1 = (r : Int) ∧ ((y : Int) + 1 + 1 = (c : Int) ∨ (y : Int) + 1 = (c : Int) ∨ (y : Int) + 1 = (c : Int) + 1) by omega),
        if_pos (show (x : Int) + -1 = (r : Int) ∧ ((y : Int) + 0 + 1 = (c : Int) ∨ (y : Int) + 0 = (c : Int) ∨ (y : Int) + 0 = (c : Int) + 1) by omega),
        if_neg (show ¬((x : Int) + -1 = (r : Int) ∧ ((y : Int) + -1 + 1 = (c : Int) ∨ (y : Int) + -1 = (c : Int) ∨ (y : Int) + -1 = (c : Int) + 1)) by omega),
        if_neg (show ¬(x = r ∧ (y + 1 = c ∨ y = c ∨ y = c + 1)) by omega),
        if_neg (show ¬(y = c ∧ (x + 1 = r ∨ x = r ∨ x = r + 1)) by omega)]
      norm_num
    · rw [if_neg (show ¬((x : Int) + 1 = (r : Int) ∧ ((y : Int) + 1 + 1 = (c : Int) ∨ (y : Int) + 1 = (c : Int) ∨ (y : Int) + 1 = (c : Int) + 1)) by omega),
        if_neg (show ¬((x : Int) + 1 = (r : Int) ∧ ((y : Int) + 0 + 1 = (c : Int) ∨ (y : Int) + 0 = (c : Int) ∨ (y : Int) + 0 = (c : Int) + 1)) by omega),
        if_neg (show ¬((x : Int) + 1 = (r : Int) ∧ ((y : Int) + -1 + 1 = (c : Int) ∨ (y : Int) + -1 = (c : Int) ∨ (y : Int) + -1 = (c : Int) + 1)) by omega),
        if_neg (show ¬((x : Int) + 0 = (r : Int) ∧ ((y : Int) + 1 + 1 = (c : Int) ∨ (y : Int) + 1 = (c : Int) ∨ (y : Int) + 1 = (c : Int) + 1)) by omega),
        if_neg (show ¬((x : Int) + 0 = (r : Int) ∧ ((y : Int) + -1 + 1 = (c : Int) ∨ (y : Int) + -1 = (c : Int) ∨ (y : Int) + -1 = (c : Int) + 1)) by omega),
        if_pos (show (x : Int) + -1 = (r : Int) ∧ ((y : Int) + 1 + 1 = (c : Int) ∨ (y : Int) + 1 = (c : Int) ∨ (y : Int) + 1 = (c : Int) + 1) by omega),
        if_pos (show (x : Int) + -1 = (r : Int) ∧ ((y : Int) + 0 + 1 = (c : Int) ∨ (y : Int) + 0 = (c : Int) ∨ (y : Int) + 0 = (c : Int) + 1) by omega),
        if_pos (show (x : Int) + -1 = (r : Int) ∧ ((y : Int) + -1 + 1 = (c : Int) ∨ (y : Int) + -1 = (c : Int) ∨ (y : Int) + -1 = (c : Int) + 1) by omega),
        if_neg (show ¬(x = r ∧ (y + 1 = c ∨ y = c ∨ y = c + 1)) by omega),
        if_pos (show y = c ∧ (x + 1 = r ∨ x = r ∨ x = r + 1) by omega)]
      norm_num
    · rw [if_neg (show ¬((x : Int) + 1 = (r : Int) ∧ ((y : Int) + 1 + 1 = (c : Int) ∨ (y : Int) + 1 = (c : Int) ∨ (y : Int) + 1 = (c : Int) + 1)) by omega),
        if_neg (show ¬((x : Int) + 1 = (r : Int) ∧ ((y : Int) + 0 + 1 = (c : Int) ∨ (y : Int) + 0 = (c : Int) ∨ (y : Int) + 0 = (c : Int) + 1)) by omega),
        if_neg (show ¬((x : Int) + 1 = (r : Int) ∧ ((y : Int) + -1 + 1 = (c : Int) ∨ (y : Int) + -1 = (c : Int) ∨ (y : Int) + -1 = (c : Int) + 1)) by omega),
        if_neg (show ¬((x : Int) + 0 = (r : Int) ∧ ((y : Int) + 1 + 1 = (c : Int) ∨ (y : Int) + 1 = (c : Int) ∨ (y : Int) + 1 = (c : Int) + 1)) by omega),
        if_neg (show ¬((x : Int) + 0 = (r : Int) ∧ ((y : Int) + -1 + 1 = (c : Int) ∨ (y : Int) + -1 = (c : Int) ∨ (y : Int) + -1 = (c : Int) + 1)) by omega),
        if_neg (show ¬((x : Int) + -1 = (r : Int) ∧ ((y : Int) + 1 + 1 = (c : Int) ∨ (y : Int) + 1 = (c : Int) ∨ (y : Int) + 1 = (c : Int) + 1)) by omega),
        if_pos (show (x : Int) + -1 = (r : Int) ∧ ((y : Int) + 0 + 1 = (c : Int) ∨ (y : Int) + 0 = (c : Int) ∨ (y : Int) + 0 = (c : Int) + 1) by omega),
        if_pos (show (x : Int) + -1 = (r : Int) ∧ ((y : Int) + -1 + 1 = (c : Int) ∨ (y : Int) + -1 = (c : Int) ∨ (y : Int) + -1 = (c : Int) + 1) by omega),
        if_neg (show ¬(x = r ∧ (y + 1 = c ∨ y = c ∨ y = c + 1)) by omega),
        if_neg (show ¬(y = c ∧ (x + 1 = r ∨ x = r ∨ x = r + 1)) by omega)]
      norm_num
    · rw [if_neg (show ¬((x : Int) + 1 = (r : Int) ∧ ((y : Int) + 1 + 1 = (c : Int) ∨ (y : Int) + 1 = (c : Int) ∨ (y : Int) + 1 = (c : Int) + 1)) by omega),
        if_neg (show ¬((x : Int) + 1 = (r : Int) ∧ ((y : Int) + 0 + 1 = (c : Int) ∨ (y : Int) + 0 = (c : Int) ∨ (y : Int) + 0 = (c : Int) + 1)) by omega),
        if_neg (show ¬((x : Int) + 1 = (r : Int) ∧ ((y : Int) + -1 + 1 = (c : Int) ∨ (y : Int) + -1 = (c : Int) ∨ (y : Int) + -1 = (c : Int) + 1)) by omega),
        if_neg (show ¬((x : Int) + 0 = (r : Int) ∧ ((y : Int) + 1 + 1 = (c : Int) ∨ (y : Int) + 1 = (c : Int) ∨ (y : Int) + 1 = (c : Int) + 1)) by omega),
        if_neg (show ¬((x : Int) + 0 = (r : Int) ∧ ((y : Int) + -1 + 1 = (c : Int) ∨ (y : Int) + -1 = (c : Int) ∨ (y : Int) + -1 = (c : Int) + 1)) by omega),
        if_neg (show ¬((x : Int) + -1 = (r : Int) ∧ ((y : Int) + 1 + 1 = (c : Int) ∨ (y : Int) + 1 = (c : Int) ∨ (y : Int) + 1 = (c : Int) + 1)) by omega),
        if_neg (show ¬((x : Int) + -1 = (r : Int) ∧ ((y : Int) + 0 + 1 = (c : Int) ∨ (y : Int) + 0 = (c : Int) ∨ (y : Int) + 0 = (c : Int) + 1)) by omega),
        if_pos (show (x : Int) + -1 = (r : Int) ∧ ((y : Int) + -1 + 1 = (c : Int) ∨ (y : Int) + -1 = (c : Int) ∨ (y : Int) + -1 = (c : Int) + 1) by omega),
        if_neg (show ¬(x = r ∧ (y + 1 = c ∨ y = c ∨ y = c + 1)) by omega),
        if_neg (show ¬(y = c ∧ (x + 1 = r ∨ x = r ∨ x = r + 1)) by omega)]
      norm_num
    · rw [if_neg (show ¬((x : Int) + 1 = (r : Int) ∧ ((y : Int) + 1 + 1 = (c : Int) ∨ (y : Int) + 1 = (c : Int) ∨ (y : Int) + 1 = (c : Int) + 1)) by omega),
        if_neg (show ¬((x : Int) + 1 = (r : Int) ∧ ((y : Int) + 0 + 1 = (c : Int) ∨ (y : Int) + 0 = (c : Int) ∨ (y : Int) + 0 = (c : Int) + 1)) by omega),
        if_neg (show ¬((x : Int) + 1 = (r : Int) ∧ ((y : Int) + -1 + 1 = (c : Int) ∨ (y : Int) + -1 = (c : Int) ∨ (y : Int) + -1 = (c : Int) + 1)) by omega),
        if_neg (show ¬((x : Int) + 0 = (r : Int) ∧ ((y : Int) + 1 + 1 = (c : Int) ∨ (y : Int) + 1 = (c : Int) ∨ (y : Int) + 1 = (c : Int) + 1)) by omega),
        if_neg (show ¬((x : Int) + 0 = (r : Int) ∧ ((y : Int) + -1 + 1 = (c : Int) ∨ (y : Int) + -1 = (c : Int) ∨ (y : Int) + -1 = (c : Int) + 1)) by omega),
        if_neg (show ¬((x : Int) + -1 = (r : Int) ∧ ((y : Int) + 1 + 1 = (c : Int) ∨ (y : Int) + 1 = (c : Int) ∨ (y : Int) + 1 = (c : Int) + 1)) by omega),
        if_neg (show ¬((x : Int) + -1 = (r : Int) ∧ ((y : Int) + 0 + 1 = (c : Int) ∨ (y : Int) + 0 = (c : Int) ∨ (y : Int) + 0 = (c : Int) + 1)) by omega),
        if_neg (show ¬((x : Int) + -1 = (r : Int) ∧ ((y : Int) + -1 + 1 = (c : Int) ∨ (y : Int) + -1 = (c : Int) ∨ (y : Int) + -1 = (c : Int) + 1)) by omega),
        if_neg (show ¬(x = r ∧ (y + 1 = c ∨ y = c ∨ y = c + 1)) by omega),
        if_neg (show ¬(y = c ∧ (x + 1 = r ∨ x = r ∨ x = r + 1)) by omega)]
      norm_num
  · rcases hycase with hb | hb | hb | hb | hb | hb
    · rw [if_neg (show ¬((x : Int) + 1 = (r : Int) ∧ ((y : Int) + 1 + 1 = (c : Int) ∨ (y : Int) + 1 = (c : Int) ∨ (y : Int) + 1 = (c : Int) + 1)) by omega),
        if_neg (show ¬((x : Int) + 1 = (r : Int) ∧ ((y : Int) + 0 + 1 = (c : Int) ∨ (y : Int) + 0 = (c : Int) ∨ (y : Int) + 0 = (c : Int) + 1)) by omega),
        if_neg (show ¬((x : Int) + 1 = (r : Int) ∧ ((y : Int) + -1 + 1 = (c : Int) ∨ (y : Int) + -1 = (c : Int) ∨ (y : Int) + -1 = (c : Int) + 1)) by omega),
        if_neg (show ¬((x : Int) + 0 = (r : Int) ∧ ((y : Int) + 1 + 1 = (c : Int) ∨ (y : Int) + 1 = (c : Int) ∨ (y : Int) + 1 = (c : Int) + 1)) by omega),
        if_neg (show ¬((x : Int) + 0 = (r : Int) ∧ ((y : Int) + -1 + 1 = (c : Int) ∨ (y : Int) + -1 = (c : Int) ∨ (y : Int) + -1 = (c : Int) + 1)) by omega),
        if_neg (show ¬((x : Int) + -1 = (r : Int) ∧ ((y : Int) + 1 + 1 = (c : Int) ∨ (y : Int) + 1 = (c : Int) ∨ (y : Int) + 1 = (c : Int) + 1)) by omega),
        if_neg (show ¬((x : Int) + -1 = (r : Int) ∧ ((y : Int) + 0 + 1 = (c : Int) ∨ (y : Int) + 0 = (c : Int) ∨ (y : Int) + 0 = (c : Int) + 1)) by omega),
        if_neg (show ¬((x : Int) + -1 = (r : Int) ∧ ((y : Int) + -1 + 1 = (c : Int) ∨ (y : Int) + -1 = (c : Int) ∨ (y : Int) + -1 = (c : Int) + 1)) by omega),
        if_neg (show ¬(x = r ∧ (y + 1 = c ∨ y = c ∨ y = c + 1)) by omega),
        if_neg (show ¬(y = c ∧ (x + 1 = r ∨ x = r ∨ x = r + 1)) by omega)]
      norm_num
    · rw [if_neg (show ¬((x : Int) + 1 = (r : Int) ∧ ((y : Int) + 1 + 1 = (c : Int) ∨ (y : Int) + 1 = (c : Int) ∨ (y : Int) + 1 = (c : Int) + 1)) by omega),
        if_neg (show ¬((x : Int) + 1 = (r : Int) ∧ ((y : Int) + 0 + 1 = (c : Int) ∨ (y : Int) + 0 = (c : Int) ∨ (y : Int) + 0 = (c : Int) + 1)) by omega),
        if_neg (show ¬((x : Int) + 1 = (r : Int) ∧ ((y : Int) + -1 + 1 = (c : Int) ∨ (y : Int) + -1 = (c : Int) ∨ (y : Int) + -1 = (c : Int) + 1)) by omega),
        if_neg (show ¬((x : Int) + 0 = (r : Int) ∧ ((y : Int) + 1 + 1 = (c : Int) ∨ (y : Int) + 1 = (c : Int) ∨ (y : Int) + 1 = (c : Int) + 1)) by omega),
        if_neg (show ¬((x : Int) + 0 = (r : Int) ∧ ((y : Int) + -1 + 1 = (c : Int) ∨ (y : Int) + -1 = (c : Int) ∨ (y : Int) + -1 = (c : Int) + 1)) by omega),
        if_neg (show ¬((x : Int) + -1 = (r : Int) ∧ ((y : Int) + 1 + 1 = (c : Int) ∨ (y : Int) + 1 = (c : Int) ∨ (y : Int) + 1 = (c : Int) + 1)) by omega),
        if_neg (show ¬((x : Int) + -1 = (r : Int) ∧ ((y : Int) + 0 + 1 = (c : Int) ∨ (y : Int) + 0 = (c : Int) ∨ (y : Int) + 0 = (c : Int) + 1)) by omega),
        if_neg (show ¬((x : Int) + -1 = (r : Int) ∧ ((y : Int) + -1 + 1 = (c : Int) ∨ (y : Int) + -1 = (c : Int) ∨ (y : Int) + -1 = (c : Int) + 1)) by omega),
        if_neg (show ¬(x = r ∧ (y + 1 = c ∨ y = c ∨ y = c + 1)) by omega),
        if_neg (show ¬(y = c ∧ (x + 1 = r ∨ x = r ∨ x = r + 1)) by omega)]
      norm_num
    · rw [if_neg (show ¬((x : Int) + 1 = (r : Int) ∧ ((y : Int) + 1 + 1 = (c : Int) ∨ (y : Int) + 1 = (c : Int) ∨ (y : Int) + 1 = (c : Int) + 1)) by omega),
        if_neg (show ¬((x : Int) + 1 = (r : Int) ∧ ((y : Int) + 0 + 1 = (c : Int) ∨ (y : Int) + 0 = (c : Int) ∨ (y : Int) + 0 = (c : Int) + 1)) by omega),
        if_neg (show ¬((x : Int) + 1 = (r : Int) ∧ ((y : Int) + -1 + 1 = (c : Int) ∨ (y : Int) + -1 = (c : Int) ∨ (y : Int) + -1 = (c : Int) + 1)) by omega),
        if_neg (show ¬((x : Int) + 0 = (r : Int) ∧ ((y : Int) + 1 + 1 = (c : Int) ∨ (y : Int) + 1 = (c : Int) ∨ (y : Int) + 1 = (c : Int) + 1)) by omega),
        if_neg (show ¬((x : Int) + 0 = (r : Int) ∧ ((y : Int) + -1 + 1 = (c : Int) ∨ (y : Int) + -1 = (c : Int) ∨ (y : Int) + -1 = (c : Int) + 1)) by omega),
        if_neg (show ¬((x : Int) + -1 = (r : Int) ∧ ((y : Int) + 1 + 1 = (c : Int) ∨ (y : Int) + 1 = (c : Int) ∨ (y : Int) + 1 = (c : Int) + 1)) by omega),
        if_neg (show ¬((x : Int) + -1 = (r : Int) ∧ ((y : Int) + 0 + 1 = (c : Int) ∨ (y : Int) + 0 = (c : Int) ∨ (y : Int) + 0 = (c : Int) + 1)) by omega),
        if_neg (show ¬((x : Int) + -1 = (r : Int) ∧ ((y : Int) + -1 + 1 = (c : Int) ∨ (y : Int) + -1 = (c : Int) ∨ (y : Int) + -1 = (c : Int) + 1)) by omega),
        if_neg (show ¬(x = r ∧ (y + 1 = c ∨ y = c ∨ y = c + 1)) by omega),
        if_neg (show ¬(y = c ∧ (x + 1 = r ∨ x = r ∨ x = r + 1)) by omega)]
      norm_num
    · rw [if_neg (show ¬((x : Int) + 1 = (r : Int) ∧ ((y : Int) + 1 + 1 = (c : Int) ∨ (y : Int) + 1 = (c : Int) ∨ (y : Int) + 1 = (c : Int) + 1)) by omega),
        if_neg (show ¬((x : Int) + 1 = (r : Int) ∧ ((y : Int) + 0 + 1 = (c : Int) ∨ (y : Int) + 0 = (c : Int) ∨ (y : Int) + 0 = (c : Int) + 1)) by omega),
        if_neg (show ¬((x : Int) + 1 = (r : Int) ∧ ((y : Int) + -1 + 1 = (c : Int) ∨ (y : Int) + -1 = (c : Int) ∨ (y : Int) + -1 = (c : Int) + 1)) by omega),
        if_neg (show ¬((x : Int) + 0 = (r : Int) ∧ ((y : Int) + 1 + 1 = (c : Int) ∨ (y : Int) + 1 = (c : Int) ∨ (y : Int) + 1 = (c : Int) + 1)) by omega),
        if_neg (show ¬((x : Int) + 0 = (r : Int) ∧ ((y : Int) + -1 + 1 = (c : Int) ∨ (y : Int) + -1 = (c : Int) ∨ (y : Int) + -1 = (c : Int) + 1)) by omega),
        if_neg (show ¬((x : Int) + -1 = (r : Int) ∧ ((y : Int) + 1 + 1 = (c : Int) ∨ (y : Int) + 1 = (c : Int) ∨ (y : Int) + 1 = (c : Int) + 1)) by omega),
        if_neg (show ¬((x : Int) + -1 = (r : Int) ∧ ((y : Int) + 0 + 1 = (c : Int) ∨ (y : Int) + 0 = (c : Int) ∨ (y : Int) + 0 = (c : Int) + 1)) by omega),
        if_neg (show ¬((x : Int) + -1 = (r : Int) ∧ ((y : Int) + -1 + 1 = (c : Int) ∨ (y : Int) + -1 = (c : Int) ∨ (y : Int) + -1 = (c : Int) + 1)) by omega),
        if_neg (show ¬(x = r ∧ (y + 1 = c ∨ y = c ∨ y = c + 1)) by omega),
        if_neg (show ¬(y = c ∧ (x + 1 = r ∨ x = r ∨ x = r + 1)) by omega)]
      norm_num
    · rw [if_neg (show ¬((x : Int) + 1 = (r : Int) ∧ ((y : Int) + 1 + 1 = (c : Int) ∨ (y : Int) + 1 = (c : Int) ∨ (y : Int) + 1 = (c : Int) + 1)) by omega),
        if_neg (show ¬((x : Int) + 1 = (r : Int) ∧ ((y : Int) + 0 + 1 = (c : Int) ∨ (y : Int) + 0 = (c : Int) ∨ (y : Int) + 0 = (c : Int) + 1)) by omega),
        if_neg (show ¬((x : Int) + 1 = (r : Int) ∧ ((y : Int) + -1 + 1 = (c : Int) ∨ (y : Int) + -1 = (c : Int) ∨ (y : Int) + -1 = (c : Int) + 1)) by omega),
        if_neg (show ¬((x : Int) + 0 = (r : Int) ∧ ((y : Int) + 1 + 1 = (c : Int) ∨ (y : Int) + 1 = (c : Int) ∨ (y : Int) + 1 = (c : Int) + 1)) by omega),
        if_neg (show ¬((x : Int) + 0 = (r : Int) ∧ ((y : Int) + -1 + 1 = (c : Int) ∨ (y : Int) + -1 = (c : Int) ∨ (y : Int) + -1 = (c : Int) + 1)) by omega),
        if_neg (show ¬((x : Int) + -1 = (r : Int) ∧ ((y : Int) + 1 + 1 = (c : Int) ∨ (y : Int) + 1 = (c : Int) ∨ (y : Int) + 1 = (c : Int) + 1)) by omega),
        if_neg (show ¬((x : Int) + -1 = (r : Int) ∧ ((y : Int) + 0 + 1 = (c : Int) ∨ (y : Int) + 0 = (c : Int) ∨ (y : Int) + 0 = (c : Int) + 1)) by omega),
        if_neg (show ¬((x : Int) + -1 = (r : Int) ∧ ((y : Int) + -1 + 1 = (c : Int) ∨ (y : Int) + -1 = (c : Int) ∨ (y : Int) + -1 = (c : Int) + 1)) by omega),
        if_neg (show ¬(x = r ∧ (y + 1 = c ∨ y = c ∨ y = c + 1)) by omega),
        if_neg (show ¬(y = c ∧ (x + 1 = r ∨ x = r ∨ x = r + 1)) by omega)]
      norm_num
    · rw [if_neg (show ¬((x : Int) + 1 = (r : Int) ∧ ((y : Int) + 1 + 1 = (c : Int) ∨ (y : Int) + 1 = (c : Int) ∨ (y : Int) + 1 = (c : Int) + 1)) by omega),
        if_neg (show ¬((x : Int) + 1 = (r : Int) ∧ ((y : Int) + 0 + 1 = (c : Int) ∨ (y : Int) + 0 = (c : Int) ∨ (y : Int) + 0 = (c : Int) + 1)) by omega),
        if_neg (show ¬((x : Int) + 1 = (r : Int) ∧ ((y : Int) + -1 + 1 = (c : Int) ∨ (y : Int) + -1 = (c : Int) ∨ (y : Int) + -1 = (c : Int) + 1)) by omega),
        if_neg (show ¬((x : Int) + 0 = (r : Int) ∧ ((y : Int) + 1 + 1 = (c : Int) ∨ (y : Int) + 1 = (c : Int) ∨ (y : Int) + 1 = (c : Int) + 1)) by omega),
        if_neg (show ¬((x : Int) + 0 = (r : Int) ∧ ((y : Int) + -1 + 1 = (c : Int) ∨ (y : Int) + -1 = (c : Int) ∨ (y : Int) + -1 = (c : Int) + 1)) by omega),
        if_neg (show ¬((x : Int) + -1 = (r : Int) ∧ ((y : Int) + 1 + 1 = (c : Int) ∨ (y : Int) + 1 = (c : Int) ∨ (y : Int) + 1 = (c : Int) + 1)) by omega),
        if_neg (show ¬((x : Int) + -1 = (r : Int) ∧ ((y : Int) + 0 + 1 = (c : Int) ∨ (y : Int) + 0 = (c : Int) ∨ (y : Int) + 0 = (c : Int) + 1)) by omega),
        if_neg (show ¬((x : Int) + -1 = (r : Int) ∧ ((y : Int) + -1 + 1 = (c : Int) ∨ (y : Int) + -1 = (c : Int) ∨ (y : Int) + -1 = (c : Int) + 1)) by omega),
        if_neg (show ¬(x = r ∧ (y + 1 = c ∨ y = c ∨ y = c + 1)) by omega),
        if_neg (show ¬(y = c ∧ (x + 1 = r ∨ x = r ∨ x = r + 1)) by omega)]
      norm_num

set_option maxHeartbeats 1600000 in
theorem stepCell_vblinker (rows cols r c : Nat)
    (hr : 2 ≤ r) (hrr : r + 3 ≤ rows) (hc : 2 ≤ c) (hcc : c + 3 ≤ cols)
    (x y : Nat) (hx : x < rows) (hy : y < cols) :
    stepCell rows cols (vblinker rows cols r c) x y =
      if x = r ∧ (y + 1 = c ∨ y = c ∨ y = c + 1) then 1 else 0 := by
  have hget : gridGet (vblinker rows cols r c) x y =
      if y = c ∧ (x + 1 = r ∨ x = r ∨ x = r + 1) then 1 else 0 := by
    simp only [vblinker]
    rw [gridGet_mkGrid, if_pos ⟨hx, hy⟩]
  rw [stepCell_eq, count_vblinker rows cols r c hr hrr hc hcc x y hx hy, hget]
  simp only [neighborOffsets, List.countP_cons, List.countP_nil,
    decide_eq_true_eq]
  have hxcase : (x : Int) + 2 = (r : Int) ∨ (x : Int) + 1 = (r : Int) ∨
      (x : Int) = (r : Int) ∨ (x : Int) = (r : Int) + 1 ∨ (x : Int) = (r : Int) + 2 ∨
      ((x : Int) + 2 < (r : Int) ∨ (x : Int) > (r : Int) + 2) := by
    omega
  have hycase : (y : Int) + 1 = (c : Int) ∨ (y : Int) = (c : Int) ∨
      (y : Int) = (c : Int) + 1 ∨ ((y : Int) + 1 < (c : Int) ∨ (y : Int) > (c : Int) + 1) := by
    omega
  rcases hxcase with ha | ha | ha | ha | ha | ha
  · rcases hycase with hb | hb | hb | hb
    · rw [if_pos (show (y : Int) + 1 = (c : Int) ∧ ((x : Int) + 1 + 1 = (r : Int) ∨ (x : Int) + 1 = (r : Int) ∨ (x : Int) + 1 = (r : Int) + 1) by omega),
        if_neg (show ¬((y : Int) + 0 = (c : Int) ∧ ((x : Int) + 1 + 1 = (r : Int) ∨ (x : Int) + 1 = (r : Int) ∨ (x : Int) + 1 = (r : Int) + 1)) by omega),
        if_neg (show ¬((y : Int) + -1 = (c : Int) ∧ ((x : Int) + 1 + 1 = (r : Int) ∨ (x : Int) + 1 = (r : Int) ∨ (x : Int) + 1 = (r : Int) + 1)) by omega),
        if_neg (show ¬((y : Int) + 1 = (c : Int) ∧ ((x : Int) + 0 + 1 = (r : Int) ∨ (x : Int) + 0 = (r : Int) ∨ (x : Int) + 0 = (r : Int) + 1)) by omega),
        if_neg (show ¬((y : Int) + -1 = (c : Int) ∧ ((x : Int) + 0 + 1 = (r : Int) ∨ (x : Int) + 0 = (r : Int) ∨ (x : Int) + 0 = (r : Int) + 1)) by omega),
        if_neg (show ¬((y : Int) + 1 = (c : Int) ∧ ((x : Int) + -1 + 1 = (r : Int) ∨ (x : Int) + -1 = (r : Int) ∨ (x : Int) + -1 = (r : Int) + 1)) by omega),
        if_neg (show ¬((y : Int) + 0 = (c : Int) ∧ ((x : Int) + -1 + 1 = (r : Int) ∨ (x : Int) + -1 = (r : Int) ∨ (x : Int) + -1 = (r : Int) + 1)) by omega),
        if_neg (show ¬((y : Int) + -1 = (c : Int) ∧ ((x : Int) + -1 + 1 = (r : Int) ∨ (x : Int) + -1 = (r : Int) ∨ (x : Int) + -1 = (r : Int) + 1)) by omega),
        if_neg (show ¬(y = c ∧ (x + 1 = r ∨ x = r ∨ x = r + 1)) by omega),
        if_neg (show ¬(x = r ∧ (y + 1 = c ∨ y = c ∨ y = c + 1)) by omega)]
      norm_num
    · rw [if_neg (show ¬((y : Int) + 1 = (c : Int) ∧ ((x : Int) + 1 + 1 = (r : Int) ∨ (x : Int) + 1 = (r : Int) ∨ (x : Int) + 1 = (r : Int) + 1)) by omega),
        if_pos (show (y : Int) + 0 = (c : Int) ∧ ((x : Int) + 1 + 1 = (r : Int) ∨ (x : Int) + 1 = (r : Int) ∨ (x : Int) + 1 = (r : Int) + 1) by omega),
        if_neg (show ¬((y : Int) + -1 = (c : Int) ∧ ((x : Int) + 1 + 1 = (r : Int) ∨ (x : Int) + 1 = (r : Int) ∨ (x : Int) + 1 = (r : Int) + 1)) by omega),
        if_neg (show ¬((y : Int) + 1 = (c : Int) ∧ ((x : Int) + 0 + 1 = (r : Int) ∨ (x : Int) + 0 = (r : Int) ∨ (x : Int) + 0 = (r : Int) + 1)) by omega),
        if_neg (show ¬((y : Int) + -1 = (c : Int) ∧ ((x : Int) + 0 + 1 = (r : Int) ∨ (x : Int) + 0 = (r : Int) ∨ (x : Int) + 0 = (r : Int) + 1)) by omega),
        if_neg (show ¬((y : Int) + 1 = (c : Int) ∧ ((x : Int) + -1 + 1 = (r : Int) ∨ (x : Int) + -1 = (r : Int) ∨ (x : Int) + -1 = (r : Int) + 1)) by omega),
        if_neg (show ¬((y : Int) + 0 = (c : Int) ∧ ((x : Int) + -1 + 1 = (r : Int) ∨ (x : Int) + -1 = (r : Int) ∨ (x : Int) + -1 = (r : Int) + 1)) by omega),
        if_neg (show ¬((y : Int) + -1 = (c : Int) ∧ ((x : Int) + -1 + 1 = (r : Int) ∨ (x : Int) + -1 = (r : Int) ∨ (x : Int) + -1 = (r : Int) + 1)) by omega),
        if_neg (show ¬(y = c ∧ (x + 1 = r ∨ x = r ∨ x = r + 1)) by omega),
        if_neg (show ¬(x = r ∧ (y + 1 = c ∨ y = c ∨ y = c + 1)) by omega)]
      norm_num
    · rw [if_neg (show ¬((y : Int) + 1 = (c : Int) ∧ ((x : Int) + 1 + 1 = (r : Int) ∨ (x : Int) + 1 = (r : Int) ∨ (x : Int) + 1 = (r : Int) + 1)) by omega),
        if_neg (show ¬((y : Int) + 0 = (c : Int) ∧ ((x : Int) + 1 + 1 = (r : Int) ∨ (x : Int) + 1 = (r : Int) ∨ (x : Int) + 1 = (r : Int) + 1)) by omega),
        if_pos (show (y : Int) + -1 = (c : Int) ∧ ((x : Int) + 1 + 1 = (r : Int) ∨ (x : Int) + 1 = (r : Int) ∨ (x : Int) + 1 = (r : Int) + 1) by omega),
        if_neg (show ¬((y : Int) + 1 = (c : Int) ∧ ((x : Int) + 0 + 1 = (r : Int) ∨ (x : Int) + 0 = (r : Int) ∨ (x : Int) + 0 = (r : Int) + 1)) by omega),
        if_neg (show ¬((y : Int) + -1 = (c : Int) ∧ ((x : Int) + 0 + 1 = (r : Int) ∨ (x : Int) + 0 = (r : Int) ∨ (x : Int) + 0 = (r : Int) + 1)) by omega),
        if_neg (show ¬((y : Int) + 1 = (c : Int) ∧ ((x : Int) + -1 + 1 = (r : Int) ∨ (x : Int) + -1 = (r : Int) ∨ (x : Int) + -1 = (r : Int) + 1)) by omega),
        if_neg (show ¬((y : Int) + 0 = (c : Int) ∧ ((x : Int) + -1 + 1 = (r : Int) ∨ (x : Int) + -1 = (r : Int) ∨ (x : Int) + -1 = (r : Int) + 1)) by omega),
        if_neg (show ¬((y : Int) + -1 = (c : Int) ∧ ((x : Int) + -1 + 1 = (r : Int) ∨ (x : Int) + -1 = (r : Int) ∨ (x : Int) + -1 = (r : Int) + 1)) by omega),
        if_neg (show ¬(y = c ∧ (x + 1 = r ∨ x = r ∨ x = r + 1)) by omega),
        if_neg (show ¬(x = r ∧ (y + 1 = c ∨ y = c ∨ y = c + 1)) by omega)]
      norm_num
    · rw [if_neg (show ¬((y : Int) + 1 = (c : Int) ∧ ((x : Int) + 1 + 1 = (r : Int) ∨ (x : Int) + 1 = (r : Int) ∨ (x : Int) + 1 = (r : Int) + 1)) by omega),
        if_neg (show ¬((y : Int) + 0 = (c : Int) ∧ ((x : Int) + 1 + 1 = (r : Int) ∨ (x : Int) + 1 = (r : Int) ∨ (x : Int) + 1 = (r : Int) + 1)) by omega),
        if_neg (show ¬((y : Int) + -1 = (c : Int) ∧ ((x : Int) + 1 + 1 = (r : Int) ∨ (x : Int) + 1 = (r : Int) ∨ (x : Int) + 1 = (r : Int) + 1)) by omega),
        if_neg (show ¬((y : Int) + 1 = (c : Int) ∧ ((x : Int) + 0 + 1 = (r : Int) ∨ (x : Int) + 0 = (r : Int) ∨ (x : Int) + 0 = (r : Int) + 1)) by omega),
        if_neg (show ¬((y : Int) + -1 = (c : Int) ∧ ((x : Int) + 0 + 1 = (r : Int) ∨ (x : Int) + 0 = (r : Int) ∨ (x : Int) + 0 = (r : Int) + 1)) by omega),
        if_neg (show ¬((y : Int) + 1 = (c : Int) ∧ ((x : Int) + -1 + 1 = (r : Int) ∨ (x : Int) + -1 = (r : Int) ∨ (x : Int) + -1 = (r : Int) + 1)) by omega),
        if_neg (show ¬((y : Int) + 0 = (c : Int) ∧ ((x : Int) + -1 + 1 = (r : Int) ∨ (x : Int) + -1 = (r : Int) ∨ (x : Int) + -1 = (r : Int) + 1)) by omega),
        if_neg (show ¬((y : Int) + -1 = (c : Int) ∧ ((x : Int) + -1 + 1 = (r : Int) ∨ (x : Int) + -1 = (r : Int) ∨ (x : Int) + -1 = (r : Int) + 1)) by omega),
        if_neg (show ¬(y = c ∧ (x + 1 = r ∨ x = r ∨ x = r + 1)) by omega),
        if_neg (show ¬(x = r ∧ (y + 1 = c ∨ y = c ∨ y = c + 1)) by omega)]
      norm_num
  · rcases hycase with hb | hb | hb | hb
    · rw [if_pos (show (y : Int) + 1 = (c : Int) ∧ ((x : Int) + 1 + 1 = (r : Int) ∨ (x : Int) + 1 = (r : Int) ∨ (x : Int) + 1 = (r : Int) + 1) by omega),
        if_neg (show ¬((y : Int) + 0 = (c : Int) ∧ ((x : Int) + 1 + 1 = (r : Int) ∨ (x : Int) + 1 = (r : Int) ∨ (x : Int) + 1 = (r : Int) + 1)) by omega),
        if_neg (show ¬((y : Int) + -1 = (c : Int) ∧ ((x : Int) + 1 + 1 = (r : Int) ∨ (x : Int) + 1 = (r : Int) ∨ (x : Int) + 1 = (r : Int) + 1)) by omega),
        if_pos (show (y : Int) + 1 = (c : Int) ∧ ((x : Int) + 0 + 1 = (r : Int) ∨ (x : Int) + 0 = (r : Int) ∨ (x : Int) + 0 = (r : Int) + 1) by omega),
        if_neg (show ¬((y : Int) + -1 = (c : Int) ∧ ((x : Int) + 0 + 1 = (r : Int) ∨ (x : Int) + 0 = (r : Int) ∨ (x : Int) + 0 = (r : Int) + 1)) by omega),
        if_neg (show ¬((y : Int) + 1 = (c : Int) ∧ ((x : Int) + -1 + 1 = (r : Int) ∨ (x : Int) + -1 = (r : Int) ∨ (x : Int) + -1 = (r : Int) + 1)) by omega),
        if_neg (show ¬((y : Int) + 0 = (c : Int) ∧ ((x : Int) + -1 + 1 = (r : Int) ∨ (x : Int) + -1 = (r : Int) ∨ (x : Int) + -1 = (r : Int) + 1)) by omega),
        if_neg (show ¬((y : Int) + -1 = (c : Int) ∧ ((x : Int) + -1 + 1 = (r : Int) ∨ (x : Int) + -1 = (r : Int) ∨ (x : Int) + -1 = (r : Int) + 1)) by omega),
        if_neg (show ¬(y = c ∧ (x + 1 = r ∨ x = r ∨ x = r + 1)) by omega),
        if_neg (show ¬(x = r ∧ (y + 1 = c ∨ y = c ∨ y = c + 1)) by omega)]
      norm_num
    · rw [if_neg (show ¬((y : Int) + 1 = (c : Int) ∧ ((x : Int) + 1 + 1 = (r : Int) ∨ (x : Int) + 1 = (r : Int) ∨ (x : Int) + 1 = (r : Int) + 1)) by omega),
        if_pos (show (y : Int) + 0 = (c : Int) ∧ ((x : Int) + 1 + 1 = (r : Int) ∨ (x : Int) + 1 = (r : Int) ∨ (x : Int) + 1 = (r : Int) + 1) by omega),
        if_neg (show ¬((y : Int) + -1 = (c : Int) ∧ ((x : Int) + 1 + 1 = (r : Int) ∨ (x : Int) + 1 = (r : Int) ∨ (x : Int) + 1 = (r : Int) + 1)) by omega),
        if_neg (show ¬((y : Int) + 1 = (c : Int) ∧ ((x : Int) + 0 + 1 = (r : Int) ∨ (x : Int) + 0 = (r : Int) ∨ (x : Int) + 0 = (r : Int) + 1)) by omega),
        if_neg (show ¬((y : Int) + -1 = (c : Int) ∧ ((x : Int) + 0 + 1 = (r : Int) ∨ (x : Int) + 0 = (r : Int) ∨ (x : Int) + 0 = (r : Int) + 1)) by omega),
        if_neg (show ¬((y : Int) + 1 = (c : Int) ∧ ((x : Int) + -1 + 1 = (r : Int) ∨ (x : Int) + -1 = (r : Int) ∨ (x : Int) + -1 = (r : Int) + 1)) by omega),
        if_neg (show ¬((y : Int) + 0 = (c : Int) ∧ ((x : Int) + -1 + 1 = (r : Int) ∨ (x : Int) + -1 = (r : Int) ∨ (x : Int) + -1 = (r : Int) + 1)) by omega),
        if_neg (show ¬((y : Int) + -1 = (c : Int) ∧ ((x : Int) + -1 + 1 = (r : Int) ∨ (x : Int) + -1 = (r : Int) ∨ (x : Int) + -1 = (r : Int) + 1)) by omega),
        if_pos (show y = c ∧ (x + 1 = r ∨ x = r ∨ x = r + 1) by omega),
        if_neg (show ¬(x = r ∧ (y + 1 = c ∨ y = c ∨ y = c + 1)) by omega)]
      norm_num
    · rw [if_neg (show ¬((y : Int) + 1 = (c : Int) ∧ ((x : Int) + 1 + 1 = (r : Int) ∨ (x : Int) + 1 = (r : Int) ∨ (x : Int) + 1 = (r : Int) + 1)) by omega),
        if_neg (show ¬((y : Int) + 0 = (c : Int) ∧ ((x : Int) + 1 + 1 = (r : Int) ∨ (x : Int) + 1 = (r : Int) ∨ (x : Int) + 1 = (r : Int) + 1)) by omega),
        if_pos (show (y : Int) + -1 = (c : Int) ∧ ((x : Int) + 1 + 1 = (r : Int) ∨ (x : Int) + 1 = (r : Int) ∨ (x : Int) + 1 = (r : Int) + 1) by omega),
        if_neg (show ¬((y : Int) + 1 = (c : Int) ∧ ((x : Int) + 0 + 1 = (r : Int) ∨ (x : Int) + 0 = (r : Int) ∨ (x : Int) + 0 = (r : Int) + 1)) by omega),
        if_pos (show (y : Int) + -1 = (c : Int) ∧ ((x : Int) + 0 + 1 = (r : Int) ∨ (x : Int) + 0 = (r : Int) ∨ (x : Int) + 0 = (r : Int) + 1) by omega),
        if_neg (show ¬((y : Int) + 1 = (c : Int) ∧ ((x : Int) + -1 + 1 = (r : Int) ∨ (x : Int) + -1 = (r : Int) ∨ (x : Int) + -1 = (r : Int) + 1)) by omega),
        if_neg (show ¬((y : Int) + 0 = (c : Int) ∧ ((x : Int) + -1 + 1 = (r : Int) ∨ (x : Int) + -1 = (r : Int) ∨ (x : Int) + -1 = (r : Int) + 1)) by omega),
        if_neg (show ¬((y : Int) + -1 = (c : Int) ∧ ((x : Int) + -1 + 1 = (r : Int) ∨ (x : Int) + -1 = (r : Int) ∨ (x : Int) + -1 = (r : Int) + 1)) by omega),
        if_neg (show ¬(y = c ∧ (x + 1 = r ∨ x = r ∨ x = r + 1)) by omega),
        if_neg (show ¬(x = r ∧ (y + 1 = c ∨ y = c ∨ y = c + 1)) by omega)]
      norm_num
    · rw [if_neg (show ¬((y : Int) + 1 = (c : Int) ∧ ((x : Int) + 1 + 1 = (r : Int) ∨ (x : Int) + 1 = (r : Int) ∨ (x : Int) + 1 = (r : Int) + 1)) by omega),
        if_neg (show ¬((y : Int) + 0 = (c : Int) ∧ ((x : Int) + 1 + 1 = (r : Int) ∨ (x : Int) + 1 = (r : Int) ∨ (x : Int) + 1 = (r : Int) + 1)) by omega),
        if_neg (show ¬((y : Int) + -1 = (c : Int) ∧ ((x : Int) + 1 + 1 = (r : Int) ∨ (x : Int) + 1 = (r : Int) ∨ (x : Int) + 1 = (r : Int) + 1)) by omega),
        if_neg (show ¬((y : Int) + 1 = (c : Int) ∧ ((x : Int) + 0 + 1 = (r : Int) ∨ (x : Int) + 0 = (r : Int) ∨ (x : Int) + 0 = (r : Int) + 1)) by omega),
        if_neg (show ¬((y : Int) + -1 = (c : Int) ∧ ((x : Int) + 0 + 1 = (r : Int) ∨ (x : Int) + 0 = (r : Int) ∨ (x : Int) + 0 = (r : Int) + 1)) by omega),
        if_neg (show ¬((y : Int) + 1 = (c : Int) ∧ ((x : Int) + -1 + 1 = (r : Int) ∨ (x : Int) + -1 = (r : Int) ∨ (x : Int) + -1 = (r : Int) + 1)) by omega),
        if_neg (show ¬((y : Int) + 0 = (c : Int) ∧ ((x : Int) + -1 + 1 = (r : Int) ∨ (x : Int) + -1 = (r : Int) ∨ (x : Int) + -1 = (r : Int) + 1)) by omega),
        if_neg (show ¬((y : Int) + -1 = (c : Int) ∧ ((x : Int) + -1 + 1 = (r : Int) ∨ (x : Int) + -1 = (r : Int) ∨ (x : Int) + -1 = (r : Int) + 1)) by omega),
        if_neg (show ¬(y = c ∧ (x + 1 = r ∨ x = r ∨ x = r + 1)) by omega),
        if_neg (show ¬(x = r ∧ (y + 1 = c ∨ y = c ∨ y = c + 1)) by omega)]
      norm_num
  · rcases hycase with hb | hb | hb | hb
    · rw [if_pos (show (y : Int) + 1 = (c : Int) ∧ ((x : Int) + 1 + 1 = (r : Int) ∨ (x : Int) + 1 = (r : Int) ∨ (x : Int) + 1 = (r : Int) + 1) by omega),
        if_neg (show ¬((y : Int) + 0 = (c : Int) ∧ ((x : Int) + 1 + 1 = (r : Int) ∨ (x : Int) + 1 = (r : Int) ∨ (x : Int) + 1 = (r : Int) + 1)) by omega),
        if_neg (show ¬((y : Int) + -1 = (c : Int) ∧ ((x : Int) + 1 + 1 = (r : Int) ∨ (x : Int) + 1 = (r : Int) ∨ (x : Int) + 1 = (r : Int) + 1)) by omega),
        if_pos (show (y : Int) + 1 = (c : Int) ∧ ((x : Int) + 0 + 1 = (r : Int) ∨ (x : Int) + 0 = (r : Int) ∨ (x : Int) + 0 = (r : Int) + 1) by omega),
        if_neg (show ¬((y : Int) + -1 = (c : Int) ∧ ((x : Int) + 0 + 1 = (r : Int) ∨ (x : Int) + 0 = (r : Int) ∨ (x : Int) + 0 = (r : Int) + 1)) by omega),
        if_pos (show (y : Int) + 1 = (c : Int) ∧ ((x : Int) + -1 + 1 = (r : Int) ∨ (x : Int) + -1 = (r : Int) ∨ (x : Int) + -1 = (r : Int) + 1) by omega),
        if_neg (show ¬((y : Int) + 0 = (c : Int) ∧ ((x : Int) + -1 + 1 = (r : Int) ∨ (x : Int) + -1 = (r : Int) ∨ (x : Int) + -1 = (r : Int) + 1)) by omega),
        if_neg (show ¬((y : Int) + -1 = (c : Int) ∧ ((x : Int) + -1 + 1 = (r : Int) ∨ (x : Int) + -1 = (r : Int) ∨ (x : Int) + -1 = (r : Int) + 1)) by omega),
        if_neg (show ¬(y = c ∧ (x + 1 = r ∨ x = r ∨ x = r + 1)) by omega),
        if_pos (show x = r ∧ (y + 1 = c ∨ y = c ∨ y = c + 1) by omega)]
      norm_num
    · rw [if_neg (show ¬((y : Int) + 1 = (c : Int) ∧ ((x : Int) + 1 + 1 = (r : Int) ∨ (x : Int) + 1 = (r : Int) ∨ (x : Int) + 1 = (r : Int) + 1)) by omega),
        if_pos (show (y : Int) + 0 = (c : Int) ∧ ((x : Int) + 1 + 1 = (r : Int) ∨ (x : Int) + 1 = (r : Int) ∨ (x : Int) + 1 = (r : Int) + 1) by omega),
        if_neg (show ¬((y : Int) + -1 = (c : Int) ∧ ((x : Int) + 1 + 1 = (r : Int) ∨ (x : Int) + 1 = (r : Int) ∨ (x : Int) + 1 = (r : Int) + 1)) by omega),
        if_neg (show ¬((y : Int) + 1 = (c : Int) ∧ ((x : Int) + 0 + 1 = (r : Int) ∨ (x : Int) + 0 = (r : Int) ∨ (x : Int) + 0 = (r : Int) + 1)) by omega),
        if_neg (show ¬((y : Int) + -1 = (c : Int) ∧ ((x : Int) + 0 + 1 = (r : Int) ∨ (x : Int) + 0 = (r : Int) ∨ (x : Int) + 0 = (r : Int) + 1)) by omega),
        if_neg (show ¬((y : Int) + 1 = (c : Int) ∧ ((x : Int) + -1 + 1 = (r : Int) ∨ (x : Int) + -1 = (r : Int) ∨ (x : Int) + -1 = (r : Int) + 1)) by omega),
        if_pos (show (y : Int) + 0 = (c : Int) ∧ ((x : Int) + -1 + 1 = (r : Int) ∨ (x : Int) + -1 = (r : Int) ∨ (x : Int) + -1 = (r : Int) + 1) by omega),
        if_neg (show ¬((y : Int) + -1 = (c : Int) ∧ ((x : Int) + -1 + 1 = (r : Int) ∨ (x : Int) + -1 = (r : Int) ∨ (x : Int) + -1 = (r : Int) + 1)) by omega),
        if_pos (show y = c ∧ (x + 1 = r ∨ x = r ∨ x = r + 1) by omega),
        if_pos (show x = r ∧ (y + 1 = c ∨ y = c ∨ y = c + 1) by omega)]
      norm_num
    · rw [if_neg (show ¬((y : Int) + 1 = (c : Int) ∧ ((x : Int) + 1 + 1 = (r : Int) ∨ (x : Int) + 1 = (r : Int) ∨ (x : Int) + 1 = (r : Int) + 1)) by omega),
        if_neg (show ¬((y : Int) + 0 = (c : Int) ∧ ((x : Int) + 1 + 1 = (r : Int) ∨ (x : Int) + 1 = (r : Int) ∨ (x : Int) + 1 = (r : Int) + 1)) by omega),
        if_pos (show (y : Int) + -1 = (c : Int) ∧ ((x : Int) + 1 + 1 = (r : Int) ∨ (x : Int) + 1 = (r : Int) ∨ (x : Int) + 1 = (r : Int) + 1) by omega),
        if_neg (show ¬((y : Int) + 1 = (c : Int) ∧ ((x : Int) + 0 + 1 = (r : Int) ∨ (x : Int) + 0 = (r : Int) ∨ (x : Int) + 0 = (r : Int) + 1)) by omega),
        if_pos (show (y : Int) + -1 = (c : Int) ∧ ((x : Int) + 0 + 1 = (r : Int) ∨ (x : Int) + 0 = (r : Int) ∨ (x : Int) + 0 = (r : Int) + 1) by omega),
        if_neg (show ¬((y : Int) + 1 = (c : Int) ∧ ((x : Int) + -1 + 1 = (r : Int) ∨ (x : Int) + -1 = (r : Int) ∨ (x : Int) + -1 = (r : Int) + 1)) by omega),
        if_neg (show ¬((y : Int) + 0 = (c : Int) ∧ ((x : Int) + -1 + 1 = (r : Int) ∨ (x : Int) + -1 = (r : Int) ∨ (x : Int) + -1 = (r : Int) + 1)) by omega),
        if_pos (show (y : Int) + -1 = (c : Int) ∧ ((x : Int) + -1 + 1 = (r : Int) ∨ (x : Int) + -1 = (r : Int) ∨ (x : Int) + -1 = (r : Int) + 1) by omega),
        if_neg (show ¬(y = c ∧ (x + 1 = r ∨ x = r ∨ x = r + 1)) by omega),
        if_pos (show x = r ∧ (y + 1 = c ∨ y = c ∨ y = c + 1) by omega)]
      norm_num
    · rw [if_neg (show ¬((y : Int) + 1 = (c : Int) ∧ ((x : Int) + 1 + 1 = (r : Int) ∨ (x : Int) + 1 = (r : Int) ∨ (x : Int) + 1 = (r : Int) + 1)) by omega),
        if_neg (show ¬((y : Int) + 0 = (c : Int) ∧ ((x : Int) + 1 + 1 = (r : Int) ∨ (x : Int) + 1 = (r : Int) ∨ (x : Int) + 1 = (r : Int) + 1)) by omega),
        if_neg (show ¬((y : Int) + -1 = (c : Int) ∧ ((x : Int) + 1 + 1 = (r : Int) ∨ (x : Int) + 1 = (r : Int) ∨ (x : Int) + 1 = (r : Int) + 1)) by omega),
        if_neg (show ¬((y : Int) + 1 = (c : Int) ∧ ((x : Int) + 0 + 1 = (r : Int) ∨ (x : Int) + 0 = (r : Int) ∨ (x : Int) + 0 = (r : Int) + 1)) by omega),
        if_neg (show ¬((y : Int) + -1 = (c : Int) ∧ ((x : Int) + 0 + 1 = (r : Int) ∨ (x : Int) + 0 = (r : Int) ∨ (x : Int) + 0 = (r : Int) + 1)) by omega),
        if_neg (show ¬((y : Int) + 1 = (c : Int) ∧ ((x : Int) + -1 + 1 = (r : Int) ∨ (x : Int) + -1 = (r : Int) ∨ (x : Int) + -1 = (r : Int) + 1)) by omega),
        if_neg (show ¬((y : Int) + 0 = (c : Int) ∧ ((x : Int) + -1 + 1 = (r : Int) ∨ (x : Int) + -1 = (r : Int) ∨ (x : Int) + -1 = (r : Int) + 1)) by omega),
        if_neg (show ¬((y : Int) + -1 = (c : Int) ∧ ((x : Int) + -1 + 1 = (r : Int) ∨ (x : Int) + -1 = (r : Int) ∨ (x : Int) + -1 = (r : Int) + 1)) by omega),
        if_neg (show ¬(y = c ∧ (x + 1 = r ∨ x = r ∨ x = r + 1)) by omega),
        if_neg (show ¬(x = r ∧ (y + 1 = c ∨ y = c ∨ y = c + 1)) by omega)]
      norm_num
  · rcases hycase with hb | hb | hb | hb
    · rw [if_neg (show ¬((y : Int) + 1 = (c : Int) ∧ ((x : Int) + 1 + 1 = (r : Int) ∨ (x : Int) + 1 = (r : Int) ∨ (x : Int) + 1 = (r : Int) + 1)) by omega),
        if_neg (show ¬((y : Int) + 0 = (c : Int) ∧ ((x : Int) + 1 + 1 = (r : Int) ∨ (x : Int) + 1 = (r : Int) ∨ (x : Int) + 1 = (r : Int) + 1)) by omega),
        if_neg (show ¬((y : Int) + -1 = (c : Int) ∧ ((x : Int) + 1 + 1 = (r : Int) ∨ (x : Int) + 1 = (r : Int) ∨ (x : Int) + 1 = (r : Int) + 1)) by omega),
        if_pos (show (y : Int) + 1 = (c : Int) ∧ ((x : Int) + 0 + 1 = (r : Int) ∨ (x : Int) + 0 = (r : Int) ∨ (x : Int) + 0 = (r : Int) + 1) by omega),
        if_neg (show ¬((y : Int) + -1 = (c : Int) ∧ ((x : Int) + 0 + 1 = (r : Int) ∨ (x : Int) + 0 = (r : Int) ∨ (x : Int) + 0 = (r : Int) + 1)) by omega),
        if_pos (show (y : Int) + 1 = (c : Int) ∧ ((x : Int) + -1 + 1 = (r : Int) ∨ (x : Int) + -1 = (r : Int) ∨ (x : Int) + -1 = (r : Int) + 1) by omega),
        if_neg (show ¬((y : Int) + 0 = (c : Int) ∧ ((x : Int) + -1 + 1 = (r : Int) ∨ (x : Int) + -1 = (r : Int) ∨ (x : Int) + -1 = (r : Int) + 1)) by omega),
        if_neg (show ¬((y : Int) + -1 = (c : Int) ∧ ((x : Int) + -1 + 1 = (r : Int) ∨ (x : Int) + -1 = (r : Int) ∨ (x : Int) + -1 = (r : Int) + 1)) by omega),
        if_neg (show ¬(y = c ∧ (x + 1 = r ∨ x = r ∨ x = r + 1)) by omega),
        if_neg (show ¬(x = r ∧ (y + 1 = c ∨ y = c ∨ y = c + 1)) by omega)]
      norm_num
    · rw [if_neg (show ¬((y : Int) + 1 = (c : Int) ∧ ((x : Int) + 1 + 1 = (r : Int) ∨ (x : Int) + 1 = (r : Int) ∨ (x : Int) + 1 = (r : Int) + 1)) by omega),
        if_neg (show ¬((y : Int) + 0 = (c : Int) ∧ ((x : Int) + 1 + 1 = (r : Int) ∨ (x : Int) + 1 = (r : Int) ∨ (x : Int) + 1 = (r : Int) + 1)) by omega),
        if_neg (show ¬((y : Int) + -1 = (c : Int) ∧ ((x : Int) + 1 + 1 = (r : Int) ∨ (x : Int) + 1 = (r : Int) ∨ (x : Int) + 1 = (r : Int) + 1)) by omega),
        if_neg (show ¬((y : Int) + 1 = (c : Int) ∧ ((x : Int) + 0 + 1 = (r : Int) ∨ (x : Int) + 0 = (r : Int) ∨ (x : Int) + 0 = (r : Int) + 1)) by omega),
        if_neg (show ¬((y : Int) + -1 = (c : Int) ∧ ((x : Int) + 0 + 1 = (r : Int) ∨ (x : Int) + 0 = (r : Int) ∨ (x : Int) + 0 = (r : Int) + 1)) by omega),
        if_neg (show ¬((y : Int) + 1 = (c : Int) ∧ ((x : Int) + -1 + 1 = (r : Int) ∨ (x : Int) + -1 = (r : Int) ∨ (x : Int) + -1 = (r : Int) + 1)) by omega),
        if_pos (show (y : Int) + 0 = (c : Int) ∧ ((x : Int) + -1 + 1 = (r : Int) ∨ (x : Int) + -1 = (r : Int) ∨ (x : Int) + -1 = (r : Int) + 1) by omega),
        if_neg (show ¬((y : Int) + -1 = (c : Int) ∧ ((x : Int) + -1 + 1 = (r : Int) ∨ (x : Int) + -1 = (r : Int) ∨ (x : Int) + -1 = (r : Int) + 1)) by omega),
        if_pos (show y = c ∧ (x + 1 = r ∨ x = r ∨ x = r + 1) by omega),
        if_neg (show ¬(x = r ∧ (y + 1 = c ∨ y = c ∨ y = c + 1)) by omega)]
      norm_num
    · rw [if_neg (show ¬((y : Int) + 1 = (c : Int) ∧ ((x : Int) + 1 + 1 = (r : Int) ∨ (x : Int) + 1 = (r : Int) ∨ (x : Int) + 1 = (r : Int) + 1)) by omega),
        if_neg (show ¬((y : Int) + 0 = (c : Int) ∧ ((x : Int) + 1 + 1 = (r : Int) ∨ (x : Int) + 1 = (r : Int) ∨ (x : Int) + 1 = (r : Int) + 1)) by omega),
        if_neg (show ¬((y : Int) + -1 = (c : Int) ∧ ((x : Int) + 1 + 1 = (r : Int) ∨ (x : Int) + 1 = (r : Int) ∨ (x : Int) + 1 = (r : Int) + 1)) by omega),
        if_neg (show ¬((y : Int) + 1 = (c : Int) ∧ ((x : Int) + 0 + 1 = (r : Int) ∨ (x : Int) + 0 = (r : Int) ∨ (x : Int) + 0 = (r : Int) + 1)) by omega),
        if_pos (show (y : Int) + -1 = (c : Int) ∧ ((x : Int) + 0 + 1 = (r : Int) ∨ (x : Int) + 0 = (r : Int) ∨ (x : Int) + 0 = (r : Int) + 1) by omega),
        if_neg (show ¬((y : Int) + 1 = (c : Int) ∧ ((x : Int) + -1 + 1 = (r : Int) ∨ (x : Int) + -1 = (r : Int) ∨ (x : Int) + -1 = (r : Int) + 1)) by omega),
        if_neg (show ¬((y : Int) + 0 = (c : Int) ∧ ((x : Int) + -1 + 1 = (r : Int) ∨ (x : Int) + -1 = (r : Int) ∨ (x : Int) + -1 = (r : Int) + 1)) by omega),
        if_pos (show (y : Int) + -1 = (c : Int) ∧ ((x : Int) + -1 + 1 = (r : Int) ∨ (x : Int) + -1 = (r : Int) ∨ (x : Int) + -1 = (r : Int) + 1) by omega),
        if_neg (show ¬(y = c ∧ (x + 1 = r ∨ x = r ∨ x = r + 1)) by omega),
        if_neg (show ¬(x = r ∧ (y + 1 = c ∨ y = c ∨ y = c + 1)) by omega)]
      norm_num
    · rw [if_neg (show ¬((y : Int) + 1 = (c : Int) ∧ ((x : Int) + 1 + 1 = (r : Int) ∨ (x : Int) + 1 = (r : Int) ∨ (x : Int) + 1 = (r : Int) + 1)) by omega),
        if_neg (show ¬((y : Int) + 0 = (c : Int) ∧ ((x : Int) + 1 + 1 = (r : Int) ∨ (x : Int) + 1 = (r : Int) ∨ (x : Int) + 1 = (r : Int) + 1)) by omega),
        if_neg (show ¬((y : Int) + -1 = (c : Int) ∧ ((x : Int) + 1 + 1 = (r : Int) ∨ (x : Int) + 1 = (r : Int) ∨ (x : Int) + 1 = (r : Int) + 1)) by omega),
        if_neg (show ¬((y : Int) + 1 = (c : Int) ∧ ((x : Int) + 0 + 1 = (r : Int) ∨ (x : Int) + 0 = (r : Int) ∨ (x : Int) + 0 = (r : Int) + 1)) by omega),
        if_neg (show ¬((y : Int) + -1 = (c : Int) ∧ ((x : Int) + 0 + 1 = (r : Int) ∨ (x : Int) + 0 = (r : Int) ∨ (x : Int) + 0 = (r : Int) + 1)) by omega),
        if_neg (show ¬((y : Int) + 1 = (c : Int) ∧ ((x : Int) + -1 + 1 = (r : Int) ∨ (x : Int) + -1 = (r : Int) ∨ (x : Int) + -1 = (r : Int) + 1)) by omega),
        if_neg (show ¬((y : Int) + 0 = (c : Int) ∧ ((x : Int) + -1 + 1 = (r : Int) ∨ (x : Int) + -1 = (r : Int) ∨ (x : Int) + -1 = (r : Int) + 1)) by omega),
        if_neg (show ¬((y : Int) + -1 = (c : Int) ∧ ((x : Int) + -1 + 1 = (r : Int) ∨ (x : Int) + -1 = (r : Int) ∨ (x : Int) + -1 = (r : Int) + 1)) by omega),
        if_neg (show ¬(y = c ∧ (x + 1 = r ∨ x = r ∨ x = r + 1)) by omega),
        if_neg (show ¬(x = r ∧ (y + 1 = c ∨ y = c ∨ y = c + 1)) by omega)]
      norm_num
  · rcases hycase with hb | hb | hb | hb
    · rw [if_neg (show ¬((y : Int) + 1 = (c : Int) ∧ ((x : Int) + 1 + 1 = (r : Int) ∨ (x : Int) + 1 = (r : Int) ∨ (x : Int) + 1 = (r : Int) + 1)) by omega),
        if_neg (show ¬((y : Int) + 0 = (c : Int) ∧ ((x : Int) + 1 + 1 = (r : Int) ∨ (x : Int) + 1 = (r : Int) ∨ (x : Int) + 1 = (r : Int) + 1)) by omega),
        if_neg (show ¬((y : Int) + -1 = (c : Int) ∧ ((x : Int) + 1 + 1 = (r : Int) ∨ (x : Int) + 1 = (r : Int) ∨ (x : Int) + 1 = (r : Int) + 1)) by omega),
        if_neg (show ¬((y : Int) + 1 = (c : Int) ∧ ((x : Int) + 0 + 1 = (r : Int) ∨ (x : Int) + 0 = (r : Int) ∨ (x : Int) + 0 = (r : Int) + 1)) by omega),
        if_neg (show ¬((y : Int) + -1 = (c : Int) ∧ ((x : Int) + 0 + 1 = (r : Int) ∨ (x : Int) + 0 = (r : Int) ∨ (x : Int) + 0 = (r : Int) + 1)) by omega),
        if_pos (show (y : Int) + 1 = (c : Int) ∧ ((x : Int) + -1 + 1 = (r : Int) ∨ (x : Int) + -1 = (r : Int) ∨ (x : Int) + -1 = (r : Int) + 1) by omega),
        if_neg (show ¬((y : Int) + 0 = (c : Int) ∧ ((x : Int) + -1 + 1 = (r : Int) ∨ (x : Int) + -1 = (r : Int) ∨ (x : Int) + -1 = (r : Int) + 1)) by omega),
        if_neg (show ¬((y : Int) + -1 = (c : Int) ∧ ((x : Int) + -1 + 1 = (r : Int) ∨ (x : Int) + -1 = (r : Int) ∨ (x : Int) + -1 = (r : Int) + 1)) by omega),
        if_neg (show ¬(y = c ∧ (x + 1 = r ∨ x = r ∨ x = r + 1)) by omega),
        if_neg (show ¬(x = r ∧ (y + 1 = c ∨ y = c ∨ y = c + 1)) by omega)]
      norm_num
    · rw [if_neg (show ¬((y : Int) + 1 = (c : Int) ∧ ((x : Int) + 1 + 1 = (r : Int) ∨ (x : Int) + 1 = (r : Int) ∨ (x : Int) + 1 = (r : Int) + 1)) by omega),
        if_neg (show ¬((y : Int) + 0 = (c : Int) ∧ ((x : Int) + 1 + 1 = (r : Int) ∨ (x : Int) + 1 = (r : Int) ∨ (x : Int) + 1 = (r : Int) + 1)) by omega),
        if_neg (show ¬((y : Int) + -1 = (c : Int) ∧ ((x : Int) + 1 + 1 = (r : Int) ∨ (x : Int) + 1 = (r : Int) ∨ (x : Int) + 1 = (r : Int) + 1)) by omega),
        if_neg (show ¬((y : Int) + 1 = (c : Int) ∧ ((x : Int) + 0 + 1 = (r : Int) ∨ (x : Int) + 0 = (r : Int) ∨ (x : Int) + 0 = (r : Int) + 1)) by omega),
        if_neg (show ¬((y : Int) + -1 = (c : Int) ∧ ((x : Int) + 0 + 1 = (r : Int) ∨ (x : Int) + 0 = (r : Int) ∨ (x : Int) + 0 = (r : Int) + 1)) by omega),
        if_neg (show ¬((y : Int) + 1 = (c : Int) ∧ ((x : Int) + -1 + 1 = (r : Int) ∨ (x : Int) + -1 = (r : Int) ∨ (x : Int) + -1 = (r : Int) + 1)) by omega),
        if_pos (show (y : Int) + 0 = (c : Int) ∧ ((x : Int) + -1 + 1 = (r : Int) ∨ (x : Int) + -1 = (r : Int) ∨ (x : Int) + -1 = (r : Int) + 1) by omega),
        if_neg (show ¬((y : Int) + -1 = (c : Int) ∧ ((x : Int) + -1 + 1 = (r : Int) ∨ (x : Int) + -1 = (r : Int) ∨ (x : Int) + -1 = (r : Int) + 1)) by omega),
        if_neg (show ¬(y = c ∧ (x + 1 = r ∨ x = r ∨ x = r + 1)) by omega),
        if_neg (show ¬(x = r ∧ (y + 1 = c ∨ y = c ∨ y = c + 1)) by omega)]
      norm_num
    · rw [if_neg (show ¬((y : Int) + 1 = (c : Int) ∧ ((x : Int) + 1 + 1 = (r : Int) ∨ (x : Int) + 1 = (r : Int) ∨ (x : Int) + 1 = (r : Int) + 1)) by omega),
        if_neg (show ¬((y : Int) + 0 = (c : Int) ∧ ((x : Int) + 1 + 1 = (r : Int) ∨ (x : Int) + 1 = (r : Int) ∨ (x : Int) + 1 = (r : Int) + 1)) by omega),
        if_neg (show ¬((y : Int) + -1 = (c : Int) ∧ ((x : Int) + 1 + 1 = (r : Int) ∨ (x : Int) + 1 = (r : Int) ∨ (x : Int) + 1 = (r : Int) + 1)) by omega),
        if_neg (show ¬((y : Int) + 1 = (c : Int) ∧ ((x : Int) + 0 + 1 = (r : Int) ∨ (x : Int) + 0 = (r : Int) ∨ (x : Int) + 0 = (r : Int) + 1)) by omega),
        if_neg (show ¬((y : Int) + -1 = (c : Int) ∧ ((x : Int) + 0 + 1 = (r : Int) ∨ (x : Int) + 0 = (r : Int) ∨ (x : Int) + 0 = (r : Int) + 1)) by omega),
        if_neg (show ¬((y : Int) + 1 = (c : Int) ∧ ((x : Int) + -1 + 1 = (r : Int) ∨ (x : Int) + -1 = (r : Int) ∨ (x : Int) + -1 = (r : Int) + 1)) by omega),
        if_neg (show ¬((y : Int) + 0 = (c : Int) ∧ ((x : Int) + -1 + 1 = (r : Int) ∨ (x : Int) + -1 = (r : Int) ∨ (x : Int) + -1 = (r : Int) + 1)) by omega),
        if_pos (show (y : Int) + -1 = (c : Int) ∧ ((x : Int) + -1 + 1 = (r : Int) ∨ (x : Int) + -1 = (r : Int) ∨ (x : Int) + -1 = (r : Int) + 1) by omega),
        if_neg (show ¬(y = c ∧ (x + 1 = r ∨ x = r ∨ x = r + 1)) by omega),
        if_neg (show ¬(x = r ∧ (y + 1 = c ∨ y = c ∨ y = c + 1)) by omega)]
      norm_num
    · rw [if_neg (show ¬((y : Int) + 1 = (c : Int) ∧ ((x : Int) + 1 + 1 = (r : Int) ∨ (x : Int) + 1 = (r : Int) ∨ (x : Int) + 1 = (r : Int) + 1)) by omega),
        if_neg (show ¬((y : Int) + 0 = (c : Int) ∧ ((x : Int) + 1 + 1 = (r : Int) ∨ (x : Int) + 1 = (r : Int) ∨ (x : Int) + 1 = (r : Int) + 1)) by omega),
        if_neg (show ¬((y : Int) + -1 = (c : Int) ∧ ((x : Int) + 1 + 1 = (r : Int) ∨ (x : Int) + 1 = (r : Int) ∨ (x : Int) + 1 = (r : Int) + 1)) by omega),
        if_neg (show ¬((y : Int) + 1 = (c : Int) ∧ ((x : Int) + 0 + 1 = (r : Int) ∨ (x : Int) + 0 = (r : Int) ∨ (x : Int) + 0 = (r : Int) + 1)) by omega),
        if_neg (show ¬((y : Int) + -1 = (c : Int) ∧ ((x : Int) + 0 + 1 = (r : Int) ∨ (x : Int) + 0 = (r : Int) ∨ (x : Int) + 0 = (r : Int) + 1)) by omega),
        if_neg (show ¬((y : Int) + 1 = (c : Int) ∧ ((x : Int) + -1 + 1 = (r : Int) ∨ (x : Int) + -1 = (r : Int) ∨ (x : Int) + -1 = (r : Int) + 1)) by omega),
        if_neg (show ¬((y : Int) + 0 = (c : Int) ∧ ((x : Int) + -1 + 1 = (r : Int) ∨ (x : Int) + -1 = (r : Int) ∨ (x : Int) + -1 = (r : Int) + 1)) by omega),
        if_neg (show ¬((y : Int) + -1 = (c : Int) ∧ ((x : Int) + -1 + 1 = (r : Int) ∨ (x : Int) + -1 = (r : Int) ∨ (x : Int) + -1 = (r : Int) + 1)) by omega),
        if_neg (show ¬(y = c ∧ (x + 1 = r ∨ x = r ∨ x = r + 1)) by omega),
        if_neg (show ¬(x = r ∧ (y + 1 = c ∨ y = c ∨ y = c + 1)) by omega)]
      norm_num
  · rcases hycase with hb | hb | hb | hb
    · rw [if_neg (show ¬((y : Int) + 1 = (c : Int) ∧ ((x : Int) + 1 + 1 = (r : Int) ∨ (x : Int) + 1 = (r : Int) ∨ (x : Int) + 1 = (r : Int) + 1)) by omega),
        if_neg (show ¬((y : Int) + 0 = (c : Int) ∧ ((x : Int) + 1 + 1 = (r : Int) ∨ (x : Int) + 1 = (r : Int) ∨ (x : Int) + 1 = (r : Int) + 1)) by omega),
        if_neg (show ¬((y : Int) + -1 = (c : Int) ∧ ((x : Int) + 1 + 1 = (r : Int) ∨ (x : Int) + 1 = (r : Int) ∨ (x : Int) + 1 = (r : Int) + 1)) by omega),
        if_neg (show ¬((y : Int) + 1 = (c : Int) ∧ ((x : Int) + 0 + 1 = (r : Int) ∨ (x : Int) + 0 = (r : Int) ∨ (x : Int) + 0 = (r : Int) + 1)) by omega),
        if_neg (show ¬((y : Int) + -1 = (c : Int) ∧ ((x : Int) + 0 + 1 = (r : Int) ∨ (x : Int) + 0 = (r : Int) ∨ (x : Int) + 0 = (r : Int) + 1)) by omega),
        if_neg (show ¬((y : Int) + 1 = (c : Int) ∧ ((x : Int) + -1 + 1 = (r : Int) ∨ (x : Int) + -1 = (r : Int) ∨ (x : Int) + -1 = (r : Int) + 1)) by omega),
        if_neg (show ¬((y : Int) + 0 = (c : Int) ∧ ((x : Int) + -1 + 1 = (r : Int) ∨ (x : Int) + -1 = (r : Int) ∨ (x : Int) + -1 = (r : Int) + 1)) by omega),
        if_neg (show ¬((y : Int) + -1 = (c : Int) ∧ ((x : Int) + -1 + 1 = (r : Int) ∨ (x : Int) + -1 = (r : Int) ∨ (x : Int) + -1 = (r : Int) + 1)) by omega),
        if_neg (show ¬(y = c ∧ (x + 1 = r ∨ x = r ∨ x = r + 1)) by omega),
        if_neg (show ¬(x = r ∧ (y + 1 = c ∨ y = c ∨ y = c + 1)) by omega)]
      norm_num
    · rw [if_neg (show ¬((y : Int) + 1 = (c : Int) ∧ ((x : Int) + 1 + 1 = (r : Int) ∨ (x : Int) + 1 = (r : Int) ∨ (x : Int) + 1 = (r : Int) + 1)) by omega),
        if_neg (show ¬((y : Int) + 0 = (c : Int) ∧ ((x : Int) + 1 + 1 = (r : Int) ∨ (x : Int) + 1 = (r : Int) ∨ (x : Int) + 1 = (r : Int) + 1)) by omega),
        if_neg (show ¬((y : Int) + -1 = (c : Int) ∧ ((x : Int) + 1 + 1 = (r : Int) ∨ (x : Int) + 1 = (r : Int) ∨ (x : Int) + 1 = (r : Int) + 1)) by omega),
        if_neg (show ¬((y : Int) + 1 = (c : Int) ∧ ((x : Int) + 0 + 1 = (r : Int) ∨ (x : Int) + 0 = (r : Int) ∨ (x : Int) + 0 = (r : Int) + 1)) by omega),
        if_neg (show ¬((y : Int) + -1 = (c : Int) ∧ ((x : Int) + 0 + 1 = (r : Int) ∨ (x : Int) + 0 = (r : Int) ∨ (x : Int) + 0 = (r : Int) + 1)) by omega),
        if_neg (show ¬((y : Int) + 1 = (c : Int) ∧ ((x : Int) + -1 + 1 = (r : Int) ∨ (x : Int) + -1 = (r : Int) ∨ (x : Int) + -1 = (r : Int) + 1)) by omega),
        if_neg (show ¬((y : Int) + 0 = (c : Int) ∧ ((x : Int) + -1 + 1 = (r : Int) ∨ (x : Int) + -1 = (r : Int) ∨ (x : Int) + -1 = (r : Int) + 1)) by omega),
        if_neg (show ¬((y : Int) + -1 = (c : Int) ∧ ((x : Int) + -1 + 1 = (r : Int) ∨ (x : Int) + -1 = (r : Int) ∨ (x : Int) + -1 = (r : Int) + 1)) by omega),
        if_neg (show ¬(y = c ∧ (x + 1 = r ∨ x = r ∨ x = r + 1)) by omega),
        if_neg (show ¬(x = r ∧ (y + 1 = c ∨ y = c ∨ y = c + 1)) by omega)]
      norm_num
    · rw [if_neg (show ¬((y : Int) + 1 = (c : Int) ∧ ((x : Int) + 1 + 1 = (r : Int) ∨ (x : Int) + 1 = (r : Int) ∨ (x : Int) + 1 = (r : Int) + 1)) by omega),
        if_neg (show ¬((y : Int) + 0 = (c : Int) ∧ ((x : Int) + 1 + 1 = (r : Int) ∨ (x : Int) + 1 = (r : Int) ∨ (x : Int) + 1 = (r : Int) + 1)) by omega),
        if_neg (show ¬((y : Int) + -1 = (c : Int) ∧ ((x : Int) + 1 + 1 = (r : Int) ∨ (x : Int) + 1 = (r : Int) ∨ (x : Int) + 1 = (r : Int) + 1)) by omega),
        if_neg (show ¬((y : Int) + 1 = (c : Int) ∧ ((x : Int) + 0 + 1 = (r : Int) ∨ (x : Int) + 0 = (r : Int) ∨ (x : Int) + 0 = (r : Int) + 1)) by omega),
        if_neg (show ¬((y : Int) + -1 = (c : Int) ∧ ((x : Int) + 0 + 1 = (r : Int) ∨ (x : Int) + 0 = (r : Int) ∨ (x : Int) + 0 = (r : Int) + 1)) by omega),
        if_neg (show ¬((y : Int) + 1 = (c : Int) ∧ ((x : Int) + -1 + 1 = (r : Int) ∨ (x : Int) + -1 = (r : Int) ∨ (x : Int) + -1 = (r : Int) + 1)) by omega),
        if_neg (show ¬((y : Int) + 0 = (c : Int) ∧ ((x : Int) + -1 + 1 = (r : Int) ∨ (x : Int) + -1 = (r : Int) ∨ (x : Int) + -1 = (r : Int) + 1)) by omega),
        if_neg (show ¬((y : Int) + -1 = (c : Int) ∧ ((x : Int) + -1 + 1 = (r : Int) ∨ (x : Int) + -1 = (r : Int) ∨ (x : Int) + -1 = (r : Int) + 1)) by omega),
        if_neg (show ¬(y = c ∧ (x + 1 = r ∨ x = r ∨ x = r + 1)) by omega),
        if_neg (show ¬(x = r ∧ (y + 1 = c ∨ y = c ∨ y = c + 1)) by omega)]
      norm_num
    · rw [if_neg (show ¬((y : Int) + 1 = (c : Int) ∧ ((x : Int) + 1 + 1 = (r : Int) ∨ (x : Int) + 1 = (r : Int) ∨ (x : Int) + 1 = (r : Int) + 1)) by omega),
        if_neg (show ¬((y : Int) + 0 = (c : Int) ∧ ((x : Int) + 1 + 1 = (r : Int) ∨ (x : Int) + 1 = (r : Int) ∨ (x : Int) + 1 = (r : Int) + 1)) by omega),
        if_neg (show ¬((y : Int) + -1 = (c : Int) ∧ ((x : Int) + 1 + 1 = (r : Int) ∨ (x : Int) + 1 = (r : Int) ∨ (x : Int) + 1 = (r : Int) + 1)) by omega),
        if_neg (show ¬((y : Int) + 1 = (c : Int) ∧ ((x : Int) + 0 + 1 = (r : Int) ∨ (x : Int) + 0 = (r : Int) ∨ (x : Int) + 0 = (r : Int) + 1)) by omega),
        if_neg (show ¬((y : Int) + -1 = (c : Int) ∧ ((x : Int) + 0 + 1 = (r : Int) ∨ (x : Int) + 0 = (r : Int) ∨ (x : Int) + 0 = (r : Int) + 1)) by omega),
        if_neg (show ¬((y : Int) + 1 = (c : Int) ∧ ((x : Int) + -1 + 1 = (r : Int) ∨ (x : Int) + -1 = (r : Int) ∨ (x : Int) + -1 = (r : Int) + 1)) by omega),
        if_neg (show ¬((y : Int) + 0 = (c : Int) ∧ ((x : Int) + -1 + 1 = (r : Int) ∨ (x : Int) + -1 = (r : Int) ∨ (x : Int) + -1 = (r : Int) + 1)) by omega),
        if_neg (show ¬((y : Int) + -1 = (c : Int) ∧ ((x : Int) + -1 + 1 = (r : Int) ∨ (x : Int) + -1 = (r : Int) ∨ (x : Int) + -1 = (r : Int) + 1)) by omega),
        if_neg (show ¬(y = c ∧ (x + 1 = r ∨ x = r ∨ x = r + 1)) by omega),
        if_neg (show ¬(x = r ∧ (y + 1 = c ∨ y = c ∨ y = c + 1)) by omega)]
      norm_num

/-- C7: a horizontal blinker, isolated in the interior of the grid, steps
to the vertical blinker at the same center, and a second step returns it
to the horizontal blinker. -/
theorem blinker_oscillates (rows cols r c : Nat)
    (hr : 2 ≤ r) (hrr : r + 3 ≤ rows) (hc : 2 ≤ c) (hcc : c + 3 ≤ cols)
    (ng ng2 : Grid) (hng : gridShape rows cols ng) (hng2 : gridShape rows cols ng2) :
    ((updateGrid rows cols (hblinker rows cols r c) ng).1 = vblinker rows cols r c ∧
     (updateGrid rows cols (vblinker rows cols r c) ng2).1 = hblinker rows cols r c) := by
  have h1 : (updateGrid rows cols (hblinker rows cols r c) ng).1 =
      stepGrid rows cols (hblinker rows cols r c) := by
    simpa only [updateGrid, computePhase] using
      updateStaging_eq_stepGrid rows cols _ ng hng
  have h2 : (updateGrid rows cols (vblinker rows cols r c) ng2).1 =
      stepGrid rows cols (vblinker rows cols r c) := by
    simpa only [updateGrid, computePhase] using
      updateStaging_eq_stepGrid rows cols _ ng2 hng2
  constructor
  · rw [h1]
    unfold stepGrid vblinker
    exact mkGrid_congr rows cols _ _
      (fun x hx y hy => stepCell_hblinker rows cols r c hr hrr hc hcc x y hx hy)
  · rw [h2]
    unfold stepGrid hblinker
    exact mkGrid_congr rows cols _ _
      (fun x hx y hy => stepCell_vblinker rows cols r c hr hrr hc hcc x y hx hy)

/-- C7 witness. -/
theorem blinker_oscillates_witness :
    (2 ≤ 2 ∧ 2 + 3 ≤ 5 ∧ 2 ≤ 2 ∧ 2 + 3 ≤ 5 ∧
      gridShape 5 5 (mkGrid 5 5 (fun _ _ => 0)) ∧
      gridShape 5 5 (mkGrid 5 5 (fun _ _ => 1))) ∧
    ((updateGrid 5 5 (hblinker 5 5 2 2) (mkGrid 5 5 (fun _ _ => 0))).1 =
       vblinker 5 5 2 2 ∧
     (updateGrid 5 5 (vblinker 5 5 2 2) (mkGrid 5 5 (fun _ _ => 1))).1 =
       hblinker 5 5 2 2) :=
  ⟨⟨by decide, by decide, by decide, by decide, by decide, by decide⟩,
    blinker_oscillates 5 5 2 2 (by decide) (by decide) (by decide) (by decide)
      (mkGrid 5 5 (fun _ _ => 0)) (mkGrid 5 5 (fun _ _ => 1))
      (by decide) (by decide)⟩

end GameOfLife
